import Mathlib

/-!
# wingo: uptime escalation and registry hardening

A shallow embedding of `win-restart-notifications/uptime.go` and
`win-restart-notifications/main.go`.  Both files declare the same
`Configuration`, `GetSystemUptime`, `ForceRestart`, `PushNotification` and
`CheckUptime`; they are embedded separately, in the namespaces `Uptime` and
`Main`, over shared data types.

The function `setRegistryKey` of `win-cis-chrome/main.go` and
`win-cis-edge/main.go` is embedded in the namespaces `Chrome` and `Edge`,
over an explicit key-value store.

Effectful calls (log lines, toast notifications, sleeps, the external restart
command, process exit) are recorded as an explicit trace of events.  What the
host answers (tick counter, result of each notification push, result of the
restart command) is read from a `World` value.
-/

namespace Wingo

/-! ## Data model -/

/-- Configuration holds the application settings; Go `int` fields are integers. -/
structure Configuration where
  UptimeThresholdWarning : Int
  UptimeThresholdCritical : Int
  CountdownMinutes : Int
  RestartCommand : String
deriving DecidableEq, Repr

/-- A `toast.Action`: the field `Type` of the library is called `ActionType` here. -/
structure Action where
  ActionType : String
  Label : String
  Arguments : String
deriving DecidableEq, Repr

/-- A `toast.Notification`, with the fields the program sets. -/
structure Notification where
  AppID : String
  Title : String
  Message : String
  Actions : List Action
deriving DecidableEq, Repr

/-- One observable effect of a run. -/
inductive Event where
  /-- A line written by `fmt.Printf`. -/
  | print (text : String)
  /-- A line written by `log.Println`, `log.Printf` or `log.Fatalf`. -/
  | log (text : String)
  /-- One call of `notification.Push()`: a notification attempt. -/
  | push (n : Notification)
  /-- One call of `time.Sleep`, in minutes. -/
  | sleep (minutes : Nat)
  /-- One invocation of an external command: program name and arguments. -/
  | exec (name : String) (args : List String)
deriving DecidableEq, Repr

/-- How a run ends: the function returns, the process exits through
`log.Fatalf` (exit status 1), or the runtime panics (index out of range). -/
inductive Outcome where
  | returned
  | fatal (status : Nat)
  | panicked
deriving DecidableEq, Repr

/-- What a run did, in order, and how it ended. -/
structure Run where
  trace : List Event
  outcome : Outcome
deriving DecidableEq, Repr

/-- Answers of the host to the effectful calls of one run.
`hoursDiv24` stands for the floating-point expression
`int(uptime.Hours() / 24)` applied to a duration in nanoseconds; floating
point is not modelled, so the conversion is a parameter. -/
structure World where
  /-- The value returned by `GetTickCount64`, below `2 ^ 64`. -/
  tickCount : Nat
  /-- The text of the error value returned next to the tick count. -/
  tickErr : String
  /-- The conversion `int(uptime.Hours() / 24)` of a duration in nanoseconds. -/
  hoursDiv24 : Int → Int
  /-- The error of the notification push number `i` of the run, if it fails. -/
  pushErr : Nat → Option String
  /-- The combined output and the error, if any, of running a command. -/
  run : String → List String → String × Option String

/-- The three branches of `CheckUptime`. -/
inductive Decision where
  | None
  | Advisory
  | ForcedRestart
deriving DecidableEq, Repr

/-! ## Library functions used by the program -/

/-- Conversion of an integer to Go `int64` (two's complement wrap-around). -/
def wrapInt64 (x : Int) : Int := (x + 2 ^ 63) % 2 ^ 64 - 2 ^ 63

/-- The constant `time.Millisecond`, in nanoseconds. -/
def Millisecond : Int := 1000000

/-- Cutting a list of characters at every occurrence of `sep`. -/
def splitChars (sep : Char) : List Char → List (List Char)
  | [] => [[]]
  | c :: cs =>
    if c = sep then [] :: splitChars sep cs
    else
      match splitChars sep cs with
      | [] => [[c]]
      | p :: ps => (c :: p) :: ps

/-- The function `strings.Split(s, sep)` for a separator of one character
(the program only calls it with `" "`). -/
def Split (s : String) (sep : Char) : List String :=
  (splitChars sep s.data).map String.mk

/-- The exact-arithmetic reading of `int(uptime.Hours() / 24)`: whole days in
a duration of nanoseconds, truncated toward zero.  Used as the `hoursDiv24`
of concrete worlds. -/
def exactDays (d : Int) : Int := Int.tdiv d (24 * 3600 * 1000000000)

/-! ## Observations on traces -/

/-- Is the event a notification attempt? -/
def Event.isPush : Event → Bool
  | .push _ => true
  | _ => false

/-- Is the event an invocation of an external command? -/
def Event.isExec : Event → Bool
  | .exec _ _ => true
  | _ => false

/-- Is the event a wait? -/
def Event.isSleep : Event → Bool
  | .sleep _ => true
  | _ => false

/-- Is the event console or log output? -/
def Event.isOutput : Event → Bool
  | .print _ => true
  | .log _ => true
  | _ => false

/-- The trace without console and log output: notification attempts, waits
and command invocations, in order. -/
def effects (t : List Event) : List Event := t.filter (fun e => !e.isOutput)

/-- Number of notification attempts in a trace. -/
def pushCount (t : List Event) : Nat := t.countP Event.isPush

/-- Number of command invocations in a trace. -/
def execCount (t : List Event) : Nat := t.countP Event.isExec

/-- Number of waits in a trace. -/
def sleepCount (t : List Event) : Nat := t.countP Event.isSleep

/-! ## `uptime.go` -/

namespace Uptime

/-- GetSystemUptime gets the system uptime using GetTickCount64: a failure
when the call returns 0, else `time.Duration(ret) * time.Millisecond`. -/
def GetSystemUptime (w : World) : Except String Int :=
  if w.tickCount = 0 then
    .error ("GetTickCount64 failed: " ++ w.tickErr)
  else
    .ok (wrapInt64 (wrapInt64 w.tickCount * Millisecond))

/-- The message of one countdown tick (the `fmt.Sprintf` of `ForceRestart`). -/
def ForceRestart.message (config : Configuration) (remaining : Int) : String :=
  "Your system has been running for over " ++ toString config.UptimeThresholdCritical
    ++ " days. " ++ "It will restart in " ++ toString remaining ++ " minutes."

/-- The notification of one countdown tick. -/
def ForceRestart.notification (config : Configuration) (remaining : Int) : Notification :=
  { AppID := "Restart Notification"
    Title := "Restart Notification - Urgent"
    Message := ForceRestart.message config remaining
    Actions := [] }

/-- The countdown loop of `ForceRestart`:
`for remaining := config.CountdownMinutes; remaining > 0; remaining--`.
`calls` counts the notification attempts made so far. -/
def ForceRestart.countdown (config : Configuration) (w : World)
    (remaining : Int) (calls : Nat) : List Event :=
  if 0 < remaining then
    [Event.log (ForceRestart.message config remaining),
      Event.push (ForceRestart.notification config remaining)]
      ++ (match w.pushErr calls with
          | some err => [Event.log ("Failed to push notification: " ++ err)]
          | none => [])
      ++ [Event.sleep 1]
      ++ ForceRestart.countdown config w (remaining - 1) (calls + 1)
  else []
termination_by remaining.toNat
decreasing_by omega

/-- ForceRestart forces a system restart with a countdown notification. -/
def ForceRestart (config : Configuration) (w : World) : Run :=
  let ticks := ForceRestart.countdown config w config.CountdownMinutes 0
  match Split config.RestartCommand ' ' with
  | [] => ⟨ticks, .panicked⟩
  | cmdName :: cmdArgs =>
    match w.run cmdName cmdArgs with
    | (output, some err) =>
      ⟨ticks ++ [Event.exec cmdName cmdArgs,
          Event.log ("Failed to restart the system: " ++ err ++ ", Output: " ++ output)],
        .fatal 1⟩
    | (output, none) =>
      ⟨ticks ++ [Event.exec cmdName cmdArgs,
          Event.log ("Restart command executed successfully. Output: " ++ output)],
        .returned⟩

/-- PushNotification sends a toast notification with an option to restart.
`calls` counts the notification attempts made so far. -/
def PushNotification (_config : Configuration) (message : String) (w : World)
    (calls : Nat) : List Event :=
  let notification : Notification :=
    { AppID := "System Reminder"
      Title := "System Uptime Warning"
      Message := message
      Actions := [
        { ActionType := "protocol", Label := "Later", Arguments := "later" },
        { ActionType := "protocol", Label := "Restart Now", Arguments := "restart" }] }
  Event.push notification ::
    (match w.pushErr calls with
     | some err => [Event.log ("Failed to push notification: " ++ err)]
     | none => [])

/-- The branch `CheckUptime` takes for an uptime in days: its
`if / else if / else` chain. -/
def CheckUptime.branch (config : Configuration) (uptimeInDays : Int) : Decision :=
  if uptimeInDays ≥ config.UptimeThresholdWarning
      ∧ uptimeInDays < config.UptimeThresholdCritical then
    .Advisory
  else if uptimeInDays ≥ config.UptimeThresholdCritical then
    .ForcedRestart
  else
    .None

/-- The message of the advisory notification (the `fmt.Sprintf` of `CheckUptime`). -/
def CheckUptime.message (config : Configuration) : String :=
  "Your system has been up for over " ++ toString config.UptimeThresholdWarning
    ++ " days. " ++ "Would you like to restart now or later?"

/-- CheckUptime checks the system uptime and decides whether to notify or restart. -/
def CheckUptime (config : Configuration) (w : World) : Run :=
  match GetSystemUptime w with
  | .error err => ⟨[Event.log ("Error getting system uptime: " ++ err)], .fatal 1⟩
  | .ok uptime =>
    let uptimeInDays := w.hoursDiv24 uptime
    let shown := Event.print ("System uptime: " ++ toString uptimeInDays ++ " days\n")
    match CheckUptime.branch config uptimeInDays with
    | .Advisory =>
      ⟨shown
          :: Event.log "Uptime is between warning and critical thresholds, offering to restart."
          :: PushNotification config (CheckUptime.message config) w 0,
        .returned⟩
    | .ForcedRestart =>
      let r := ForceRestart config w
      ⟨shown
          :: Event.log
            "Uptime is at or above critical threshold, starting countdown and forcing restart."
          :: r.trace,
        r.outcome⟩
    | .None =>
      ⟨[shown,
          Event.log ("Uptime is less than " ++ toString config.UptimeThresholdWarning
            ++ " days, doing nothing.\n")],
        .returned⟩

end Uptime

/-! ## `main.go` -/

namespace Main

/-- GetSystemUptime gets the system uptime using GetTickCount64: a failure
when the call returns 0, else `time.Duration(ret) * time.Millisecond`. -/
def GetSystemUptime (w : World) : Except String Int :=
  if w.tickCount = 0 then
    .error ("GetTickCount64 failed: " ++ w.tickErr)
  else
    .ok (wrapInt64 (wrapInt64 w.tickCount * Millisecond))

/-- The message of one countdown tick (the `fmt.Sprintf` of `ForceRestart`). -/
def ForceRestart.message (config : Configuration) (remaining : Int) : String :=
  "Your system has been running for over " ++ toString config.UptimeThresholdCritical
    ++ " days. " ++ "It will restart in " ++ toString remaining ++ " minutes."

/-- The notification of one countdown tick. -/
def ForceRestart.notification (config : Configuration) (remaining : Int) : Notification :=
  { AppID := "Restart Notification"
    Title := "Urgent - Restart Notification"
    Message := ForceRestart.message config remaining
    Actions := [] }

/-- The countdown loop of `ForceRestart`:
`for remaining := config.CountdownMinutes; remaining > 0; remaining--`.
`calls` counts the notification attempts made so far. -/
def ForceRestart.countdown (config : Configuration) (w : World)
    (remaining : Int) (calls : Nat) : List Event :=
  if 0 < remaining then
    [Event.log (ForceRestart.message config remaining),
      Event.push (ForceRestart.notification config remaining)]
      ++ (match w.pushErr calls with
          | some err => [Event.log ("Failed to push notification: " ++ err)]
          | none => [])
      ++ [Event.sleep 1]
      ++ ForceRestart.countdown config w (remaining - 1) (calls + 1)
  else []
termination_by remaining.toNat
decreasing_by omega

/-- ForceRestart forces a system restart with a countdown notification:
after the countdown, `exec.Command(config.RestartCommand)` and `cmd.Run()`. -/
def ForceRestart (config : Configuration) (w : World) : Run :=
  let ticks := ForceRestart.countdown config w config.CountdownMinutes 0
  match (w.run config.RestartCommand []).2 with
  | some err =>
    ⟨ticks ++ [Event.exec config.RestartCommand [],
        Event.log ("Failed to restart the system: " ++ err)],
      .fatal 1⟩
  | none => ⟨ticks ++ [Event.exec config.RestartCommand []], .returned⟩

/-- PushNotification sends a toast notification with an option to restart.
`calls` counts the notification attempts made so far. -/
def PushNotification (_config : Configuration) (message : String) (w : World)
    (calls : Nat) : List Event :=
  let notification : Notification :=
    { AppID := "System Reminder"
      Title := "System Uptime Warning"
      Message := message
      Actions := [
        { ActionType := "protocol", Label := "Later", Arguments := "later" },
        { ActionType := "protocol", Label := "Restart Now", Arguments := "restart" }] }
  Event.push notification ::
    (match w.pushErr calls with
     | some err => [Event.log ("Failed to push notification: " ++ err)]
     | none => [])

/-- The branch `CheckUptime` takes for an uptime in days: its
`if / else if / else` chain. -/
def CheckUptime.branch (config : Configuration) (uptimeInDays : Int) : Decision :=
  if uptimeInDays ≥ config.UptimeThresholdWarning
      ∧ uptimeInDays < config.UptimeThresholdCritical then
    .Advisory
  else if uptimeInDays ≥ config.UptimeThresholdCritical then
    .ForcedRestart
  else
    .None

/-- The message of the advisory notification (the `fmt.Sprintf` of `CheckUptime`). -/
def CheckUptime.message (config : Configuration) : String :=
  "Your system has been up for over " ++ toString config.UptimeThresholdWarning
    ++ " days. " ++ "Would you like to restart now or later?"

/-- CheckUptime checks the system uptime and decides whether to notify or restart. -/
def CheckUptime (config : Configuration) (w : World) : Run :=
  match GetSystemUptime w with
  | .error err => ⟨[Event.log ("Error getting system uptime: " ++ err)], .fatal 1⟩
  | .ok uptime =>
    let uptimeInDays := w.hoursDiv24 uptime
    let shown := Event.print ("System uptime: " ++ toString uptimeInDays ++ " days\n")
    match CheckUptime.branch config uptimeInDays with
    | .Advisory =>
      ⟨shown
          :: Event.log "Uptime is between warning and critical thresholds, offering to restart."
          :: PushNotification config (CheckUptime.message config) w 0,
        .returned⟩
    | .ForcedRestart =>
      let r := ForceRestart config w
      ⟨shown
          :: Event.log
            "Uptime is at or above critical threshold, starting countdown and forcing restart."
          :: r.trace,
        r.outcome⟩
    | .None =>
      ⟨[shown,
          Event.log ("Uptime is less than " ++ toString config.UptimeThresholdWarning
            ++ " days, doing nothing.\n")],
        .returned⟩

end Main

/-! ## Registry model (`win-cis-chrome/main.go`, `win-cis-edge/main.go`) -/

/-- A Go value of type `interface{}` held by a map of registry values: a
`uint32` (below `2 ^ 32`; no arithmetic is done on it), a `string`, or a
value of any other dynamic type, named by `goType`. -/
inductive Value where
  | uint32 (v : Nat)
  | string (s : String)
  | other (goType : String)
deriving DecidableEq, Repr

/-- The data stored under a value name of a registry key: a DWORD or a string. -/
inductive RegData where
  | dword (v : Nat)
  | sz (s : String)
deriving DecidableEq, Repr

/-- The explicit key-value store: key path, then value name, to the data. -/
abbrev Store := String → String → Option RegData

/-- The store after a successful write of `d` under `name` of the key `path`. -/
def Store.set (st : Store) (path name : String) (d : RegData) : Store :=
  fun p n => if p = path ∧ n = name then some d else st p n

/-- The registry as one call sees it: the store, the error of opening a key
path if it cannot be opened, and the error, if it fails, of the write attempt
number `i` of the call on the value `name`.  A failed write stores nothing. -/
structure Registry where
  store : Store
  openErr : String → Option String
  setErr : Nat → String → Option String

/-- One step of `setRegistryKey` on the registry or the log. -/
inductive RegEvent where
  /-- A call of `key.SetDWordValue(name, v)` on the key `path`. -/
  | setDWord (path name : String) (v : Nat)
  /-- A call of `key.SetStringValue(name, s)` on the key `path`. -/
  | setString (path name : String) (s : String)
  /-- A line written by `log.Printf`. -/
  | log (text : String)
deriving DecidableEq, Repr

/-- What a call of `setRegistryKey` returns (the message of the error, or
`none` for `nil`), the store after it, and its steps in order. -/
structure SetResult where
  err : Option String
  store : Store
  trace : List RegEvent

namespace Chrome

/-- The loop `for name, value := range values` of `setRegistryKey`, on the
entries in the order the range visits them.  `err` is the variable `err` of
the function, `attempts` counts the write attempts made so far. -/
def setRegistryKey.range (reg : Registry) (path : String) :
    List (String × Value) → Option String → Store → Nat → SetResult
  | [], _, st, _ => ⟨none, st, []⟩
  | (name, value) :: rest, err, st, attempts =>
    match value with
    | .uint32 v =>
      match reg.setErr attempts name with
      | some e =>
        ⟨some ("failed to set registry value " ++ name ++ ": " ++ e), st,
          [RegEvent.setDWord path name v]⟩
      | none =>
        let r := setRegistryKey.range reg path rest none
          (st.set path name (.dword v)) (attempts + 1)
        ⟨r.err, r.store, RegEvent.setDWord path name v :: r.trace⟩
    | .string v =>
      match reg.setErr attempts name with
      | some e =>
        ⟨some ("failed to set registry value " ++ name ++ ": " ++ e), st,
          [RegEvent.setString path name v]⟩
      | none =>
        let r := setRegistryKey.range reg path rest none
          (st.set path name (.sz v)) (attempts + 1)
        ⟨r.err, r.store, RegEvent.setString path name v :: r.trace⟩
    | .other _ =>
      match err with
      | some e =>
        ⟨some ("failed to set registry value " ++ name ++ ": " ++ e), st,
          [RegEvent.log ("unsupported type for key " ++ name)]⟩
      | none =>
        let r := setRegistryKey.range reg path rest none st attempts
        ⟨r.err, r.store, RegEvent.log ("unsupported type for key " ++ name) :: r.trace⟩

/-- Function to set registry values: open the key, then write every entry. -/
def setRegistryKey (reg : Registry) (path : String) (values : List (String × Value)) :
    SetResult :=
  match reg.openErr path with
  | some e => ⟨some ("failed to open registry key: " ++ e), reg.store, []⟩
  | none => setRegistryKey.range reg path values none reg.store 0

end Chrome

namespace Edge

/-- The loop `for name, value := range values` of `setRegistryKey`, on the
entries in the order the range visits them.  `err` is the variable `err` of
the function, `attempts` counts the write attempts made so far. -/
def setRegistryKey.range (reg : Registry) (path : String) :
    List (String × Value) → Option String → Store → Nat → SetResult
  | [], _, st, _ => ⟨none, st, []⟩
  | (name, value) :: rest, err, st, attempts =>
    match value with
    | .uint32 v =>
      match reg.setErr attempts name with
      | some e =>
        ⟨some ("failed to set registry value " ++ name ++ ": " ++ e), st,
          [RegEvent.setDWord path name v]⟩
      | none =>
        let r := setRegistryKey.range reg path rest none
          (st.set path name (.dword v)) (attempts + 1)
        ⟨r.err, r.store, RegEvent.setDWord path name v :: r.trace⟩
    | .string v =>
      match reg.setErr attempts name with
      | some e =>
        ⟨some ("failed to set registry value " ++ name ++ ": " ++ e), st,
          [RegEvent.setString path name v]⟩
      | none =>
        let r := setRegistryKey.range reg path rest none
          (st.set path name (.sz v)) (attempts + 1)
        ⟨r.err, r.store, RegEvent.setString path name v :: r.trace⟩
    | .other _ =>
      match err with
      | some e =>
        ⟨some ("failed to set registry value " ++ name ++ ": " ++ e), st,
          [RegEvent.log ("unsupported type for key " ++ name)]⟩
      | none =>
        let r := setRegistryKey.range reg path rest none st attempts
        ⟨r.err, r.store, RegEvent.log ("unsupported type for key " ++ name) :: r.trace⟩

/-- The function `setRegistryKey`: open the key, then write every entry. -/
def setRegistryKey (reg : Registry) (path : String) (values : List (String × Value)) :
    SetResult :=
  match reg.openErr path with
  | some e => ⟨some ("failed to open registry key: " ++ e), reg.store, []⟩
  | none => setRegistryKey.range reg path values none reg.store 0

end Edge

/-! ## Observations on calls of `setRegistryKey` -/

/-- The data a value is written as: a DWORD for a `uint32`, a string for a
`string`, nothing for any other type. -/
def Value.data? : Value → Option RegData
  | .uint32 v => some (.dword v)
  | .string s => some (.sz s)
  | .other _ => none

/-- The entries of a map that are written, in the order of the range: those
whose value is a `uint32` or a `string`. -/
def writes (values : List (String × Value)) : List (String × Value) :=
  values.filter fun entry => entry.2.data?.isSome

/-- The step `setRegistryKey` makes for an entry when it reaches it. -/
def RegEvent.ofEntry (path : String) (entry : String × Value) : RegEvent :=
  match entry.2 with
  | .uint32 v => .setDWord path entry.1 v
  | .string s => .setString path entry.1 s
  | .other _ => .log ("unsupported type for key " ++ entry.1)

/-- Is the step a write attempt? -/
def RegEvent.isWrite : RegEvent → Bool
  | .setDWord _ _ _ => true
  | .setString _ _ _ => true
  | .log _ => false

/-- Every write of a call on these entries succeeds: the write number `i` of
the call, on the `i`-th written entry, has no error. -/
def everyWriteSucceeds (reg : Registry) (values : List (String × Value)) : Prop :=
  ∀ i name v, (writes values)[i]? = some (name, v) → reg.setErr i name = none

/-- The write number `i` of a call on these entries, on the value `name`, is
the first one that fails, with the error `e`. -/
def firstFailingWrite (reg : Registry) (values : List (String × Value)) (i : Nat)
    (name : String) (v : Value) (e : String) : Prop :=
  (writes values)[i]? = some (name, v) ∧ reg.setErr i name = some e
    ∧ ∀ j n u, j < i → (writes values)[j]? = some (n, u) → reg.setErr j n = none

/-- The restart command of a run failed: an invocation recorded in the trace
has an error in the world. -/
def restartFailed (w : World) (r : Run) : Prop :=
  ∃ name args, Event.exec name args ∈ r.trace ∧ (w.run name args).2 ≠ none

/-- The restart command of a run succeeded: an invocation recorded in the
trace has no error in the world. -/
def restartSucceeded (w : World) (r : Run) : Prop :=
  ∃ name args, Event.exec name args ∈ r.trace ∧ (w.run name args).2 = none

/-- The world where every notification push succeeds and all else is as in `w`. -/
def World.allPushesSucceed (w : World) : World := { w with pushErr := fun _ => none }

/-! ## Concrete configurations and worlds -/

/-- A configuration with `warning = 30`, `critical = 60`, a countdown of 5
minutes and a restart command with arguments. -/
def sampleConfig : Configuration :=
  { UptimeThresholdWarning := 30
    UptimeThresholdCritical := 60
    CountdownMinutes := 5
    RestartCommand := "shutdown /r /t 0" }

/-- A configuration whose two thresholds are equal. -/
def collapsedConfig : Configuration :=
  { sampleConfig with UptimeThresholdWarning := 30, UptimeThresholdCritical := 30 }

/-- A misconfiguration: the critical threshold is below the warning threshold. -/
def invertedConfig : Configuration :=
  { sampleConfig with UptimeThresholdWarning := 60, UptimeThresholdCritical := 30 }

/-- The sample configuration with a countdown of 3 minutes. -/
def shortCountdown : Configuration := { sampleConfig with CountdownMinutes := 3 }

/-- The sample configuration with no countdown. -/
def immediateConfig : Configuration := { sampleConfig with CountdownMinutes := 0 }

/-- A world that has been up for `days` whole days, where every notification
push and the restart command succeed. -/
def calmWorld (days : Nat) : World :=
  { tickCount := days * 86400000
    tickErr := ""
    hoursDiv24 := exactDays
    pushErr := fun _ => none
    run := fun _ _ => ("", none) }

/-- A world up for 60 days where the second notification push fails and the
restart command succeeds. -/
def flakyNotifierWorld : World :=
  { calmWorld 60 with pushErr := fun i => if i = 1 then some "toast: powershell failed" else none }

/-- A world up for 60 days where every command fails with exit status 1. -/
def brokenRestartWorld : World :=
  { calmWorld 60 with run := fun _ _ => ("Access is denied.", some "exit status 1") }

/-- A world up for 45 days where every notification push fails. -/
def deafNotifierWorld : World :=
  { calmWorld 45 with pushErr := fun _ => some "toast: powershell failed" }

/-- A world whose tick counter returns 0, with the error text the call
reports next to it. -/
def deadClockWorld : World :=
  { calmWorld 0 with tickErr := "The operation completed successfully." }

/-- Three entries of the Chrome policy map and one of an unsupported type,
in one order of iteration. -/
def samplePolicies : List (String × Value) :=
  [("SafeBrowsingProtectionLevel", .uint32 1),
    ("Homepage", .other "bool"),
    ("AuthSchemes", .string "[\"ntlm\", \"negotiate\"]"),
    ("DiskCacheSize", .uint32 250609664)]

/-- Another order of iteration over the same entries. -/
def reversedPolicies : List (String × Value) := samplePolicies.reverse

/-- The key path `chromePath` of `win-cis-chrome/main.go`. -/
def chromePath : String := "SOFTWARE\\Policies\\Google\\Chrome"

/-- A registry where the Chrome policy key holds an old cache size, every key
opens and every write succeeds. -/
def healthyRegistry : Registry :=
  { store := fun p n =>
      if p = chromePath ∧ n = "DiskCacheSize" then some (.dword 1) else none
    openErr := fun _ => none
    setErr := fun _ _ => none }

/-- A registry where the second write attempt of a call is refused. -/
def refusingRegistry : Registry :=
  { healthyRegistry with setErr := fun i _ => if i = 1 then some "Access is denied." else none }

/-! ## The branch of `CheckUptime` -/

/-- C1. For `0 ≤ warning ≤ critical`, in both copies of `CheckUptime`, the
branch taken is `None` iff `uptimeDays < warning`, `Advisory` iff
`warning ≤ uptimeDays < critical`, and `ForcedRestart` iff
`uptimeDays ≥ critical`: the three ranges partition the integers. -/
theorem checkUptime_branch_partition (config : Configuration) (uptimeDays : Int)
    (_h0 : 0 ≤ config.UptimeThresholdWarning)
    (hwc : config.UptimeThresholdWarning ≤ config.UptimeThresholdCritical) :
    ((Uptime.CheckUptime.branch config uptimeDays = Decision.None
        ↔ uptimeDays < config.UptimeThresholdWarning)
      ∧ (Uptime.CheckUptime.branch config uptimeDays = Decision.Advisory
        ↔ config.UptimeThresholdWarning ≤ uptimeDays
          ∧ uptimeDays < config.UptimeThresholdCritical)
      ∧ (Uptime.CheckUptime.branch config uptimeDays = Decision.ForcedRestart
        ↔ uptimeDays ≥ config.UptimeThresholdCritical))
    ∧ ((Main.CheckUptime.branch config uptimeDays = Decision.None
        ↔ uptimeDays < config.UptimeThresholdWarning)
      ∧ (Main.CheckUptime.branch config uptimeDays = Decision.Advisory
        ↔ config.UptimeThresholdWarning ≤ uptimeDays
          ∧ uptimeDays < config.UptimeThresholdCritical)
      ∧ (Main.CheckUptime.branch config uptimeDays = Decision.ForcedRestart
        ↔ uptimeDays ≥ config.UptimeThresholdCritical)) := by
  unfold Uptime.CheckUptime.branch Main.CheckUptime.branch
  split_ifs <;> simp <;> omega

/-- Witness of C1 at `warning = 30`, `critical = 60`, `uptimeDays = 45`. -/
theorem checkUptime_branch_partition_witness :
    Uptime.CheckUptime.branch sampleConfig 45 = Decision.Advisory
      ∧ Main.CheckUptime.branch sampleConfig 45 = Decision.Advisory :=
  have h := checkUptime_branch_partition sampleConfig 45 (by decide) (by decide)
  ⟨h.1.2.1.2 (by decide), h.2.2.1.2 (by decide)⟩

/-- C6, as stated, fails: with `warning = critical = 30` (so that
`0 ≤ warning ≤ critical`) and `uptimeDays = warning = 30`, both copies take
the `ForcedRestart` branch, not `Advisory`. -/
theorem boundary_warning_counterexample :
    (0 : Int) ≤ collapsedConfig.UptimeThresholdWarning
      ∧ collapsedConfig.UptimeThresholdWarning ≤ collapsedConfig.UptimeThresholdCritical
      ∧ (30 : Int) = collapsedConfig.UptimeThresholdWarning
      ∧ Uptime.CheckUptime.branch collapsedConfig 30 = Decision.ForcedRestart
      ∧ Uptime.CheckUptime.branch collapsedConfig 30 ≠ Decision.Advisory
      ∧ Main.CheckUptime.branch collapsedConfig 30 = Decision.ForcedRestart
      ∧ Main.CheckUptime.branch collapsedConfig 30 ≠ Decision.Advisory := by
  decide

/-- C6, amended. For `0 ≤ warning ≤ critical`, in both copies: when
`uptimeDays = warning` and `warning < critical` the branch is `Advisory`
(not `None`); when `uptimeDays = critical` the branch is `ForcedRestart`
(not `Advisory`). -/
theorem checkUptime_branch_boundaries (config : Configuration) (uptimeDays : Int)
    (_h0 : 0 ≤ config.UptimeThresholdWarning)
    (_hwc : config.UptimeThresholdWarning ≤ config.UptimeThresholdCritical) :
    (uptimeDays = config.UptimeThresholdWarning
        → config.UptimeThresholdWarning < config.UptimeThresholdCritical
        → Uptime.CheckUptime.branch config uptimeDays = Decision.Advisory
          ∧ Main.CheckUptime.branch config uptimeDays = Decision.Advisory)
      ∧ (uptimeDays = config.UptimeThresholdCritical
        → Uptime.CheckUptime.branch config uptimeDays = Decision.ForcedRestart
          ∧ Main.CheckUptime.branch config uptimeDays = Decision.ForcedRestart) := by
  unfold Uptime.CheckUptime.branch Main.CheckUptime.branch
  refine ⟨fun hu hlt => ?_, fun hu => ?_⟩
  · subst hu
    simp [hlt]
  · subst hu
    simp

/-- Witness of amended C6 at `warning = 30`, `critical = 60`: uptime 30 is
advisory and uptime 60 forces the restart. -/
theorem checkUptime_branch_boundaries_witness :
    (Uptime.CheckUptime.branch sampleConfig 30 = Decision.Advisory
        ∧ Main.CheckUptime.branch sampleConfig 30 = Decision.Advisory)
      ∧ (Uptime.CheckUptime.branch sampleConfig 60 = Decision.ForcedRestart
        ∧ Main.CheckUptime.branch sampleConfig 60 = Decision.ForcedRestart) :=
  ⟨(checkUptime_branch_boundaries sampleConfig 30 (by decide) (by decide)).1
      (by decide) (by decide),
    (checkUptime_branch_boundaries sampleConfig 60 (by decide) (by decide)).2 (by decide)⟩

/-- C7. When `warningThresholdDays = criticalThresholdDays`, `CheckUptime`
(uptime.go) never takes the `Advisory` branch: the branch is `None` below the
common threshold and `ForcedRestart` at or above it. -/
theorem checkUptime_branch_collapsed (config : Configuration) (uptimeDays : Int)
    (heq : config.UptimeThresholdWarning = config.UptimeThresholdCritical) :
    Uptime.CheckUptime.branch config uptimeDays ≠ Decision.Advisory
      ∧ (uptimeDays < config.UptimeThresholdCritical
        → Uptime.CheckUptime.branch config uptimeDays = Decision.None)
      ∧ (uptimeDays ≥ config.UptimeThresholdCritical
        → Uptime.CheckUptime.branch config uptimeDays = Decision.ForcedRestart) := by
  unfold Uptime.CheckUptime.branch
  rw [heq]
  split_ifs <;> simp <;> omega

/-- Witness of C7 at `warning = critical = 30`: uptime 29 does nothing and
uptime 30 forces the restart. -/
theorem checkUptime_branch_collapsed_witness :
    Uptime.CheckUptime.branch collapsedConfig 29 = Decision.None
      ∧ Uptime.CheckUptime.branch collapsedConfig 30 = Decision.ForcedRestart :=
  ⟨(checkUptime_branch_collapsed collapsedConfig 29 (by decide)).2.1 (by decide),
    (checkUptime_branch_collapsed collapsedConfig 30 (by decide)).2.2 (by decide)⟩

/-- C9. When `criticalThresholdDays < warningThresholdDays`, in both copies
`CheckUptime` takes the `ForcedRestart` branch iff
`uptimeDays ≥ criticalThresholdDays`, the `None` branch otherwise, and never
the `Advisory` branch. -/
theorem checkUptime_branch_inverted (config : Configuration) (uptimeDays : Int)
    (hlt : config.UptimeThresholdCritical < config.UptimeThresholdWarning) :
    ((Uptime.CheckUptime.branch config uptimeDays = Decision.ForcedRestart
        ↔ uptimeDays ≥ config.UptimeThresholdCritical)
      ∧ (Uptime.CheckUptime.branch config uptimeDays = Decision.None
        ↔ ¬ uptimeDays ≥ config.UptimeThresholdCritical)
      ∧ Uptime.CheckUptime.branch config uptimeDays ≠ Decision.Advisory)
    ∧ ((Main.CheckUptime.branch config uptimeDays = Decision.ForcedRestart
        ↔ uptimeDays ≥ config.UptimeThresholdCritical)
      ∧ (Main.CheckUptime.branch config uptimeDays = Decision.None
        ↔ ¬ uptimeDays ≥ config.UptimeThresholdCritical)
      ∧ Main.CheckUptime.branch config uptimeDays ≠ Decision.Advisory) := by
  unfold Uptime.CheckUptime.branch Main.CheckUptime.branch
  split_ifs <;> simp <;> omega

/-- Witness of C9 at `warning = 60`, `critical = 30`: uptime 45, between the
two thresholds, forces the restart. -/
theorem checkUptime_branch_inverted_witness :
    Uptime.CheckUptime.branch invertedConfig 45 = Decision.ForcedRestart
      ∧ Main.CheckUptime.branch invertedConfig 45 = Decision.ForcedRestart :=
  have h := checkUptime_branch_inverted invertedConfig 45 (by decide)
  ⟨h.1.1.2 (by decide), h.2.1.2 (by decide)⟩

/-! ## The countdown loop -/

theorem effects_append (s t : List Event) : effects (s ++ t) = effects s ++ effects t := by
  simp [effects]

theorem effects_pushLog (o : Option String) :
    effects (match o with
      | some err => [Event.log ("Failed to push notification: " ++ err)]
      | none => []) = [] := by
  cases o <;> simp [effects, Event.isOutput]

theorem splitChars_ne_nil (sep : Char) (cs : List Char) : splitChars sep cs ≠ [] := by
  cases cs with
  | nil => simp [splitChars]
  | cons c cs =>
    unfold splitChars
    split_ifs
    · simp
    · split <;> simp

theorem Split_ne_nil (s : String) (sep : Char) : Split s sep ≠ [] := by
  simp [Split, splitChars_ne_nil]

/-- The ticks `n, n - 1, ..., 1` of a countdown of `n` minutes, for a given
notification of each tick: one notification attempt, then a wait of one minute. -/
theorem uptime_countdown_effects (config : Configuration) (w : World) (n calls : Nat) :
    effects (Uptime.ForceRestart.countdown config w (n : Int) calls)
      = (List.range' 1 n).reverse.flatMap fun k =>
          [Event.push (Uptime.ForceRestart.notification config (k : Int)), Event.sleep 1] := by
  induction n generalizing calls with
  | zero =>
    rw [Uptime.ForceRestart.countdown]
    simp [effects]
  | succ n ih =>
    rw [Uptime.ForceRestart.countdown]
    have hpos : (0 : Int) < ((n + 1 : Nat) : Int) := by omega
    have hsub : ((n + 1 : Nat) : Int) - 1 = (n : Int) := by omega
    rw [if_pos hpos, hsub, effects_append, effects_append, effects_append, effects_pushLog,
      ih (calls + 1), List.range'_1_concat, List.reverse_append]
    simp [effects, Event.isOutput, Nat.add_comm]

theorem pushCount_effects (t : List Event) : pushCount (effects t) = pushCount t := by
  induction t with
  | nil => rfl
  | cons e t ih =>
    cases e <;> simp_all [pushCount, effects, Event.isOutput, Event.isPush]

theorem execCount_effects (t : List Event) : execCount (effects t) = execCount t := by
  induction t with
  | nil => rfl
  | cons e t ih =>
    cases e <;> simp_all [execCount, effects, Event.isOutput, Event.isExec]

theorem sleepCount_effects (t : List Event) : sleepCount (effects t) = sleepCount t := by
  induction t with
  | nil => rfl
  | cons e t ih =>
    cases e <;> simp_all [sleepCount, effects, Event.isOutput, Event.isSleep]

theorem ticks_counts (f : Nat → Notification) (l : List Nat) :
    pushCount (l.flatMap fun k => [Event.push (f k), Event.sleep 1]) = l.length
      ∧ sleepCount (l.flatMap fun k => [Event.push (f k), Event.sleep 1]) = l.length
      ∧ execCount (l.flatMap fun k => [Event.push (f k), Event.sleep 1]) = 0 := by
  induction l with
  | nil => simp [pushCount, sleepCount, execCount]
  | cons k l ih =>
    obtain ⟨h1, h2, h3⟩ := ih
    simp only [pushCount, sleepCount, execCount] at h1 h2 h3 ⊢
    simp [List.flatMap_cons, List.countP_cons, Event.isPush, Event.isSleep, Event.isExec,
      h1, h2, h3]

theorem uptime_tick_notification (config : Configuration) (k : Nat) :
    Uptime.ForceRestart.notification config (k : Int)
      = { AppID := "Restart Notification"
          Title := "Restart Notification - Urgent"
          Message := "Your system has been running for over "
            ++ toString config.UptimeThresholdCritical
            ++ " days. It will restart in " ++ toString k ++ " minutes."
          Actions := [] } := by
  have hlit : " days. " ++ "It will restart in " = " days. It will restart in " := by decide
  have hk : toString (k : Int) = toString k := rfl
  simp only [Uptime.ForceRestart.notification, Uptime.ForceRestart.message, hk]
  rw [String.append_assoc _ " days. " "It will restart in ", hlit]

theorem uptime_forceRestart_effects (config : Configuration) (w : World) :
    effects (Uptime.ForceRestart config w).trace
      = effects (Uptime.ForceRestart.countdown config w config.CountdownMinutes 0)
        ++ [Event.exec ((Split config.RestartCommand ' ').headD "")
              (Split config.RestartCommand ' ').tail] := by
  unfold Uptime.ForceRestart
  split
  · next h => exact absurd h (Split_ne_nil _ _)
  · next cmdName cmdArgs h =>
    simp only [h, List.headD_cons, List.tail_cons]
    split <;> simp [effects, Event.isOutput]

/-! ## Claims on `ForceRestart` -/

/-- C2. For `countdownMinutes = N ≥ 0`, the effects of `ForceRestart`
(uptime.go) are exactly: for `k = N, N - 1, ..., 1` one notification attempt
whose message states `criticalThresholdDays` and `k` remaining minutes, each
followed by a wait of one minute, and then one invocation of the restart
command.  So there are `N` notification attempts, `N` waits and one
invocation; for `N = 0` the effects are the invocation alone. -/
theorem forceRestart_effect_trace (config : Configuration) (w : World) (N : Nat)
    (hN : config.CountdownMinutes = (N : Int)) :
    effects (Uptime.ForceRestart config w).trace
        = ((List.range' 1 N).reverse.flatMap fun k =>
            [Event.push
                { AppID := "Restart Notification"
                  Title := "Restart Notification - Urgent"
                  Message := "Your system has been running for over "
                    ++ toString config.UptimeThresholdCritical
                    ++ " days. It will restart in " ++ toString k ++ " minutes."
                  Actions := [] },
              Event.sleep 1])
          ++ [Event.exec ((Split config.RestartCommand ' ').headD "")
                (Split config.RestartCommand ' ').tail]
      ∧ pushCount (Uptime.ForceRestart config w).trace = N
      ∧ sleepCount (Uptime.ForceRestart config w).trace = N
      ∧ execCount (Uptime.ForceRestart config w).trace = 1
      ∧ (N = 0 → effects (Uptime.ForceRestart config w).trace
          = [Event.exec ((Split config.RestartCommand ' ').headD "")
              (Split config.RestartCommand ' ').tail]) := by
  have key := uptime_forceRestart_effects config w
  rw [hN, uptime_countdown_effects] at key
  simp only [uptime_tick_notification] at key
  have hc := ticks_counts (fun k =>
    ({ AppID := "Restart Notification"
       Title := "Restart Notification - Urgent"
       Message := "Your system has been running for over "
         ++ toString config.UptimeThresholdCritical
         ++ " days. It will restart in " ++ toString k ++ " minutes."
       Actions := [] } : Notification)) (List.range' 1 N).reverse
  simp only [List.length_reverse, List.length_range'] at hc
  obtain ⟨hp, hs, he⟩ := hc
  refine ⟨key, ?_, ?_, ?_, ?_⟩
  · rw [← pushCount_effects, key]
    simp only [pushCount] at hp ⊢
    rw [List.countP_append, hp]
    simp [Event.isPush]
  · rw [← sleepCount_effects, key]
    simp only [sleepCount] at hs ⊢
    rw [List.countP_append, hs]
    simp [Event.isSleep]
  · rw [← execCount_effects, key]
    simp only [execCount] at he ⊢
    rw [List.countP_append, he]
    simp [Event.isExec]
  · intro h0
    rw [key, h0]
    rfl

/-- Witness of C2 with a countdown of 3 minutes and the thresholds 30 and 60:
three notifications for 3, 2 and 1 minutes, each followed by a wait, then the
restart command. -/
theorem forceRestart_effect_trace_witness :
    effects (Uptime.ForceRestart shortCountdown (calmWorld 60)).trace
      = [Event.push
            { AppID := "Restart Notification"
              Title := "Restart Notification - Urgent"
              Message := "Your system has been running for over 60 days. It will restart in 3 minutes."
              Actions := [] },
          Event.sleep 1,
          Event.push
            { AppID := "Restart Notification"
              Title := "Restart Notification - Urgent"
              Message := "Your system has been running for over 60 days. It will restart in 2 minutes."
              Actions := [] },
          Event.sleep 1,
          Event.push
            { AppID := "Restart Notification"
              Title := "Restart Notification - Urgent"
              Message := "Your system has been running for over 60 days. It will restart in 1 minutes."
              Actions := [] },
          Event.sleep 1,
          Event.exec "shutdown" ["/r", "/t", "0"]] :=
  (forceRestart_effect_trace shortCountdown (calmWorld 60) 3 (by decide)).1.trans (by decide)

theorem uptime_countdown_effects_int (config : Configuration) (w : World) (r : Int)
    (calls : Nat) :
    effects (Uptime.ForceRestart.countdown config w r calls)
      = (List.range' 1 r.toNat).reverse.flatMap fun k =>
          [Event.push (Uptime.ForceRestart.notification config (k : Int)), Event.sleep 1] := by
  by_cases hr : 0 ≤ r
  · obtain ⟨n, rfl⟩ := Int.eq_ofNat_of_zero_le hr
    simpa using uptime_countdown_effects config w n calls
  · have hneg : ¬ (0 < r) := by omega
    have h0 : r.toNat = 0 := by omega
    rw [Uptime.ForceRestart.countdown, if_neg hneg, h0]
    simp [effects]

theorem main_countdown_effects (config : Configuration) (w : World) (n calls : Nat) :
    effects (Main.ForceRestart.countdown config w (n : Int) calls)
      = (List.range' 1 n).reverse.flatMap fun k =>
          [Event.push (Main.ForceRestart.notification config (k : Int)), Event.sleep 1] := by
  induction n generalizing calls with
  | zero =>
    rw [Main.ForceRestart.countdown]
    simp [effects]
  | succ n ih =>
    rw [Main.ForceRestart.countdown]
    have hpos : (0 : Int) < ((n + 1 : Nat) : Int) := by omega
    have hsub : ((n + 1 : Nat) : Int) - 1 = (n : Int) := by omega
    rw [if_pos hpos, hsub, effects_append, effects_append, effects_append, effects_pushLog,
      ih (calls + 1), List.range'_1_concat, List.reverse_append]
    simp [effects, Event.isOutput, Nat.add_comm]

theorem main_countdown_effects_int (config : Configuration) (w : World) (r : Int)
    (calls : Nat) :
    effects (Main.ForceRestart.countdown config w r calls)
      = (List.range' 1 r.toNat).reverse.flatMap fun k =>
          [Event.push (Main.ForceRestart.notification config (k : Int)), Event.sleep 1] := by
  by_cases hr : 0 ≤ r
  · obtain ⟨n, rfl⟩ := Int.eq_ofNat_of_zero_le hr
    simpa using main_countdown_effects config w n calls
  · have hneg : ¬ (0 < r) := by omega
    have h0 : r.toNat = 0 := by omega
    rw [Main.ForceRestart.countdown, if_neg hneg, h0]
    simp [effects]

theorem main_forceRestart_effects (config : Configuration) (w : World) :
    effects (Main.ForceRestart config w).trace
      = effects (Main.ForceRestart.countdown config w config.CountdownMinutes 0)
        ++ [Event.exec config.RestartCommand []] := by
  unfold Main.ForceRestart
  split <;> simp [effects, Event.isOutput]

theorem uptime_forceRestart_outcome (config : Configuration) (w : World) :
    (Uptime.ForceRestart config w).outcome
      = if (w.run ((Split config.RestartCommand ' ').headD "")
            (Split config.RestartCommand ' ').tail).2 = none
        then Outcome.returned else Outcome.fatal 1 := by
  unfold Uptime.ForceRestart
  split
  · next h => exact absurd h (Split_ne_nil _ _)
  · next cmdName cmdArgs h =>
    simp only [h, List.headD_cons, List.tail_cons]
    split <;> simp_all

theorem main_forceRestart_outcome (config : Configuration) (w : World) :
    (Main.ForceRestart config w).outcome
      = if (w.run config.RestartCommand []).2 = none
        then Outcome.returned else Outcome.fatal 1 := by
  unfold Main.ForceRestart
  split <;> simp_all

/-- C5. For every countdown and every pattern of notifier failures, in both
copies `ForceRestart` makes the same notification attempts, waits and restart
invocation, in the same order, and ends the same way, as in the world where
every notification push succeeds. -/
theorem forceRestart_ignores_notifier_failures (config : Configuration) (w : World) :
    (effects (Uptime.ForceRestart config w).trace
        = effects (Uptime.ForceRestart config w.allPushesSucceed).trace
      ∧ (Uptime.ForceRestart config w).outcome
        = (Uptime.ForceRestart config w.allPushesSucceed).outcome)
    ∧ (effects (Main.ForceRestart config w).trace
        = effects (Main.ForceRestart config w.allPushesSucceed).trace
      ∧ (Main.ForceRestart config w).outcome
        = (Main.ForceRestart config w.allPushesSucceed).outcome) := by
  refine ⟨⟨?_, ?_⟩, ?_, ?_⟩
  · rw [uptime_forceRestart_effects, uptime_forceRestart_effects,
      uptime_countdown_effects_int, uptime_countdown_effects_int]
  · rw [uptime_forceRestart_outcome, uptime_forceRestart_outcome]
    rfl
  · rw [main_forceRestart_effects, main_forceRestart_effects,
      main_countdown_effects_int, main_countdown_effects_int]
  · rw [main_forceRestart_outcome, main_forceRestart_outcome]
    rfl

theorem uptime_countdown_no_exec (config : Configuration) (w : World) (r : Int) (calls : Nat) :
    execCount (Uptime.ForceRestart.countdown config w r calls) = 0 := by
  rw [← execCount_effects, uptime_countdown_effects_int]
  exact (ticks_counts _ _).2.2

theorem main_countdown_no_exec (config : Configuration) (w : World) (r : Int) (calls : Nat) :
    execCount (Main.ForceRestart.countdown config w r calls) = 0 := by
  rw [← execCount_effects, main_countdown_effects_int]
  exact (ticks_counts _ _).2.2

theorem not_mem_of_execCount_zero (t : List Event) (h : execCount t = 0) (name : String)
    (args : List String) : Event.exec name args ∉ t := by
  intro hmem
  have hpos : 0 < execCount t := List.countP_pos_iff.2 ⟨_, hmem, rfl⟩
  omega

/-- The shape of a run of `ForceRestart` (uptime.go): the countdown, the
invocation of the split restart command, one log line; the outcome follows
the result of the invocation. -/
theorem uptime_forceRestart_shape (config : Configuration) (w : World) :
    ∃ line,
      (Uptime.ForceRestart config w).trace
        = Uptime.ForceRestart.countdown config w config.CountdownMinutes 0
          ++ Event.exec ((Split config.RestartCommand ' ').headD "")
              (Split config.RestartCommand ' ').tail :: [Event.log line] := by
  unfold Uptime.ForceRestart
  split
  · next h => exact absurd h (Split_ne_nil _ _)
  · next cmdName cmdArgs h =>
    simp only [h, List.headD_cons, List.tail_cons]
    split <;> exact ⟨_, rfl⟩

/-- The shape of a run of `ForceRestart` (main.go): the countdown, the
invocation of the restart command, and a log line when it failed. -/
theorem main_forceRestart_shape (config : Configuration) (w : World) :
    ∃ post,
      (Main.ForceRestart config w).trace
        = Main.ForceRestart.countdown config w config.CountdownMinutes 0
          ++ Event.exec config.RestartCommand [] :: post
      ∧ pushCount post = 0 ∧ execCount post = 0 := by
  unfold Main.ForceRestart
  split
  · exact ⟨[Event.log _], rfl, rfl, rfl⟩
  · exact ⟨[], rfl, rfl, rfl⟩

/-- C4. In both copies of `ForceRestart`: when the restart command fails the
run ends fatally (exit status 1), when it succeeds the run returns normally,
so the two outcomes differ; and the trace of a failed run is the countdown,
then the one failed invocation, then a remainder with no notification attempt
and no further invocation. -/
theorem forceRestart_failure_is_fatal (config : Configuration) (w : World) :
    (restartFailed w (Uptime.ForceRestart config w)
        → (Uptime.ForceRestart config w).outcome = Outcome.fatal 1
          ∧ (∀ w2, restartSucceeded w2 (Uptime.ForceRestart config w2)
              → (Uptime.ForceRestart config w2).outcome = Outcome.returned
                ∧ (Uptime.ForceRestart config w2).outcome
                  ≠ (Uptime.ForceRestart config w).outcome)
          ∧ ∃ pre name args post,
              (Uptime.ForceRestart config w).trace = pre ++ Event.exec name args :: post
                ∧ (w.run name args).2 ≠ none
                ∧ execCount pre = 0 ∧ execCount post = 0 ∧ pushCount post = 0)
    ∧ (restartFailed w (Main.ForceRestart config w)
        → (Main.ForceRestart config w).outcome = Outcome.fatal 1
          ∧ (∀ w2, restartSucceeded w2 (Main.ForceRestart config w2)
              → (Main.ForceRestart config w2).outcome = Outcome.returned
                ∧ (Main.ForceRestart config w2).outcome
                  ≠ (Main.ForceRestart config w).outcome)
          ∧ ∃ pre name args post,
              (Main.ForceRestart config w).trace = pre ++ Event.exec name args :: post
                ∧ (w.run name args).2 ≠ none
                ∧ execCount pre = 0 ∧ execCount post = 0 ∧ pushCount post = 0) := by
  have uptimeOnly : ∀ (v : World) (name : String) (args : List String),
      Event.exec name args ∈ (Uptime.ForceRestart config v).trace
        → name = (Split config.RestartCommand ' ').headD ""
          ∧ args = (Split config.RestartCommand ' ').tail := by
    intro v name args hmem
    obtain ⟨line, hshape⟩ := uptime_forceRestart_shape config v
    rw [hshape, List.mem_append] at hmem
    rcases hmem with hmem | hmem
    · exact absurd hmem
        (not_mem_of_execCount_zero _ (uptime_countdown_no_exec config v _ _) name args)
    · simpa using hmem
  have mainOnly : ∀ (v : World) (name : String) (args : List String),
      Event.exec name args ∈ (Main.ForceRestart config v).trace
        → name = config.RestartCommand ∧ args = [] := by
    intro v name args hmem
    obtain ⟨post, hshape, _, hpost⟩ := main_forceRestart_shape config v
    rw [hshape, List.mem_append] at hmem
    rcases hmem with hmem | hmem
    · exact absurd hmem
        (not_mem_of_execCount_zero _ (main_countdown_no_exec config v _ _) name args)
    · rcases List.mem_cons.1 hmem with hmem | hmem
      · simpa using hmem
      · exact absurd hmem (not_mem_of_execCount_zero _ hpost name args)
  constructor
  · rintro ⟨name, args, hmem, hfail⟩
    obtain ⟨rfl, rfl⟩ := uptimeOnly w name args hmem
    have hout : (Uptime.ForceRestart config w).outcome = Outcome.fatal 1 := by
      rw [uptime_forceRestart_outcome, if_neg hfail]
    refine ⟨hout, ?_, ?_⟩
    · rintro w2 ⟨name2, args2, hmem2, hok⟩
      obtain ⟨rfl, rfl⟩ := uptimeOnly w2 name2 args2 hmem2
      have hout2 : (Uptime.ForceRestart config w2).outcome = Outcome.returned := by
        rw [uptime_forceRestart_outcome, if_pos hok]
      refine ⟨hout2, ?_⟩
      rw [hout2, hout]
      simp
    · obtain ⟨line, hshape⟩ := uptime_forceRestart_shape config w
      exact ⟨_, _, _, _, hshape, hfail, uptime_countdown_no_exec config w _ _, rfl, rfl⟩
  · rintro ⟨name, args, hmem, hfail⟩
    obtain ⟨rfl, rfl⟩ := mainOnly w name args hmem
    have hout : (Main.ForceRestart config w).outcome = Outcome.fatal 1 := by
      rw [main_forceRestart_outcome, if_neg hfail]
    refine ⟨hout, ?_, ?_⟩
    · rintro w2 ⟨name2, args2, hmem2, hok⟩
      obtain ⟨rfl, rfl⟩ := mainOnly w2 name2 args2 hmem2
      have hout2 : (Main.ForceRestart config w2).outcome = Outcome.returned := by
        rw [main_forceRestart_outcome, if_pos hok]
      refine ⟨hout2, ?_⟩
      rw [hout2, hout]
      simp
    · obtain ⟨post, hshape, hpush, hexec⟩ := main_forceRestart_shape config w
      exact ⟨_, _, _, _, hshape, hfail, main_countdown_no_exec config w _ _, hexec, hpush⟩

/-- Witness of C4: with a restart command that exits with status 1 the run is
fatal, in both copies, while with a succeeding one it returns. -/
theorem forceRestart_failure_is_fatal_witness :
    ((Uptime.ForceRestart shortCountdown brokenRestartWorld).outcome = Outcome.fatal 1
        ∧ (Uptime.ForceRestart shortCountdown (calmWorld 60)).outcome = Outcome.returned)
      ∧ ((Main.ForceRestart shortCountdown brokenRestartWorld).outcome = Outcome.fatal 1
        ∧ (Main.ForceRestart shortCountdown (calmWorld 60)).outcome = Outcome.returned) := by
  have hsplit : Split shortCountdown.RestartCommand ' ' = ["shutdown", "/r", "/t", "0"] := by
    decide
  have hu := (forceRestart_failure_is_fatal shortCountdown brokenRestartWorld).1
    ⟨"shutdown", ["/r", "/t", "0"],
      by simp [Uptime.ForceRestart, hsplit, brokenRestartWorld, calmWorld], by decide⟩
  have hm := (forceRestart_failure_is_fatal shortCountdown brokenRestartWorld).2
    ⟨"shutdown /r /t 0", [],
      by simp [Main.ForceRestart, shortCountdown, sampleConfig, brokenRestartWorld, calmWorld],
      by decide⟩
  refine ⟨⟨hu.1, (hu.2.1 (calmWorld 60) ⟨"shutdown", ["/r", "/t", "0"], ?_, by decide⟩).1⟩,
    hm.1, (hm.2.1 (calmWorld 60) ⟨"shutdown /r /t 0", [], ?_, by decide⟩).1⟩
  · simp [Uptime.ForceRestart, hsplit, calmWorld]
  · simp [Main.ForceRestart, shortCountdown, sampleConfig, calmWorld]

/-! ## Claims on the runs of `CheckUptime` -/

theorem uptime_branch_advisory_iff (config : Configuration) (u : Int) :
    Uptime.CheckUptime.branch config u = Decision.Advisory
      ↔ config.UptimeThresholdWarning ≤ u ∧ u < config.UptimeThresholdCritical := by
  unfold Uptime.CheckUptime.branch
  split_ifs <;> simp <;> omega

theorem uptime_branch_forced_iff (config : Configuration) (u : Int) :
    Uptime.CheckUptime.branch config u = Decision.ForcedRestart
      ↔ config.UptimeThresholdCritical ≤ u := by
  unfold Uptime.CheckUptime.branch
  split_ifs <;> simp <;> omega

theorem uptime_branch_none_iff (config : Configuration) (u : Int) :
    Uptime.CheckUptime.branch config u = Decision.None
      ↔ u < config.UptimeThresholdWarning ∧ u < config.UptimeThresholdCritical := by
  unfold Uptime.CheckUptime.branch
  split_ifs <;> simp <;> omega

theorem uptime_forceRestart_execCount (config : Configuration) (w : World) :
    execCount (Uptime.ForceRestart config w).trace = 1 := by
  rw [← execCount_effects, uptime_forceRestart_effects, uptime_countdown_effects_int]
  have h := (ticks_counts (fun k => Uptime.ForceRestart.notification config (k : Int))
    (List.range' 1 config.CountdownMinutes.toNat).reverse).2.2
  simp only [execCount] at h ⊢
  rw [List.countP_append, h]
  simp [Event.isExec]

theorem uptime_pushNotification_effects (config : Configuration) (message : String)
    (w : World) (calls : Nat) :
    effects (Uptime.PushNotification config message w calls)
      = [Event.push
          { AppID := "System Reminder"
            Title := "System Uptime Warning"
            Message := message
            Actions := [
              { ActionType := "protocol", Label := "Later", Arguments := "later" },
              { ActionType := "protocol", Label := "Restart Now", Arguments := "restart" }] }] := by
  unfold Uptime.PushNotification
  cases w.pushErr calls <;> simp [effects, Event.isOutput]

theorem uptime_checkUptime_message (config : Configuration) :
    Uptime.CheckUptime.message config
      = "Your system has been up for over " ++ toString config.UptimeThresholdWarning
        ++ " days. Would you like to restart now or later?" := by
  have hlit : " days. " ++ "Would you like to restart now or later?"
      = " days. Would you like to restart now or later?" := by decide
  unfold Uptime.CheckUptime.message
  rw [String.append_assoc _ " days. " "Would you like to restart now or later?", hlit]

/-- The run of `CheckUptime` (uptime.go) on the advisory branch. -/
theorem uptime_checkUptime_advisory (config : Configuration) (w : World) (uptime : Int)
    (hread : Uptime.GetSystemUptime w = Except.ok uptime)
    (hb : Uptime.CheckUptime.branch config (w.hoursDiv24 uptime) = Decision.Advisory) :
    Uptime.CheckUptime config w
      = ⟨Event.print ("System uptime: " ++ toString (w.hoursDiv24 uptime) ++ " days\n")
          :: Event.log "Uptime is between warning and critical thresholds, offering to restart."
          :: Uptime.PushNotification config (Uptime.CheckUptime.message config) w 0,
        Outcome.returned⟩ := by
  unfold Uptime.CheckUptime
  simp only [hread, hb]

/-- The run of `CheckUptime` (uptime.go) on the forced-restart branch. -/
theorem uptime_checkUptime_forced (config : Configuration) (w : World) (uptime : Int)
    (hread : Uptime.GetSystemUptime w = Except.ok uptime)
    (hb : Uptime.CheckUptime.branch config (w.hoursDiv24 uptime) = Decision.ForcedRestart) :
    Uptime.CheckUptime config w
      = ⟨Event.print ("System uptime: " ++ toString (w.hoursDiv24 uptime) ++ " days\n")
          :: Event.log
            "Uptime is at or above critical threshold, starting countdown and forcing restart."
          :: (Uptime.ForceRestart config w).trace,
        (Uptime.ForceRestart config w).outcome⟩ := by
  unfold Uptime.CheckUptime
  simp only [hread, hb]

/-- The run of `CheckUptime` (uptime.go) on the do-nothing branch. -/
theorem uptime_checkUptime_none (config : Configuration) (w : World) (uptime : Int)
    (hread : Uptime.GetSystemUptime w = Except.ok uptime)
    (hb : Uptime.CheckUptime.branch config (w.hoursDiv24 uptime) = Decision.None) :
    Uptime.CheckUptime config w
      = ⟨[Event.print ("System uptime: " ++ toString (w.hoursDiv24 uptime) ++ " days\n"),
          Event.log ("Uptime is less than " ++ toString config.UptimeThresholdWarning
            ++ " days, doing nothing.\n")],
        Outcome.returned⟩ := by
  unfold Uptime.CheckUptime
  simp only [hread, hb]

/-- C3. After a successful uptime read, `CheckUptime` (uptime.go) invokes the
restart command once when `uptimeDays ≥ criticalThresholdDays` and never
otherwise; below both thresholds it makes no notifier call and no
invocation; in the advisory range it makes one notifier call and no
invocation. -/
theorem checkUptime_restart_invocations (config : Configuration) (w : World) (uptime : Int)
    (hread : Uptime.GetSystemUptime w = Except.ok uptime) :
    execCount (Uptime.CheckUptime config w).trace
        = (if w.hoursDiv24 uptime ≥ config.UptimeThresholdCritical then 1 else 0)
      ∧ (w.hoursDiv24 uptime < config.UptimeThresholdWarning
          → w.hoursDiv24 uptime < config.UptimeThresholdCritical
          → pushCount (Uptime.CheckUptime config w).trace = 0
            ∧ execCount (Uptime.CheckUptime config w).trace = 0)
      ∧ (config.UptimeThresholdWarning ≤ w.hoursDiv24 uptime
          → w.hoursDiv24 uptime < config.UptimeThresholdCritical
          → pushCount (Uptime.CheckUptime config w).trace = 1
            ∧ execCount (Uptime.CheckUptime config w).trace = 0) := by
  have hadv : Uptime.CheckUptime.branch config (w.hoursDiv24 uptime) = Decision.Advisory
      → pushCount (Uptime.CheckUptime config w).trace = 1
        ∧ execCount (Uptime.CheckUptime config w).trace = 0 := by
    intro hb
    rw [uptime_checkUptime_advisory config w uptime hread hb]
    rw [← pushCount_effects, ← execCount_effects]
    have hcons : ∀ (a b : String) (t : List Event),
        effects (Event.print a :: Event.log b :: t) = effects t := by
      intro a b t
      simp [effects, Event.isOutput]
    rw [hcons, uptime_pushNotification_effects]
    exact ⟨rfl, rfl⟩
  have hnone : Uptime.CheckUptime.branch config (w.hoursDiv24 uptime) = Decision.None
      → pushCount (Uptime.CheckUptime config w).trace = 0
        ∧ execCount (Uptime.CheckUptime config w).trace = 0 := by
    intro hb
    rw [uptime_checkUptime_none config w uptime hread hb]
    exact ⟨rfl, rfl⟩
  refine ⟨?_, ?_, ?_⟩
  · by_cases hc : config.UptimeThresholdCritical ≤ w.hoursDiv24 uptime
    · rw [if_pos hc, uptime_checkUptime_forced config w uptime hread
        ((uptime_branch_forced_iff config _).2 hc)]
      have h1 := uptime_forceRestart_execCount config w
      simp only [execCount] at h1 ⊢
      simp [List.countP_cons, Event.isExec, h1]
    · rw [if_neg hc]
      by_cases hw : config.UptimeThresholdWarning ≤ w.hoursDiv24 uptime
      · exact (hadv ((uptime_branch_advisory_iff config _).2 ⟨hw, by omega⟩)).2
      · exact (hnone ((uptime_branch_none_iff config _).2 ⟨by omega, by omega⟩)).2
  · intro hw hc
    exact hnone ((uptime_branch_none_iff config _).2 ⟨hw, hc⟩)
  · intro hw hc
    exact hadv ((uptime_branch_advisory_iff config _).2 ⟨hw, hc⟩)

/-- Witness of C3 at `warning = 30`, `critical = 60`, `countdown = 5`: after
10 days nothing happens, after 45 days there is one notifier call and no
invocation, after 60 days there is one invocation. -/
theorem checkUptime_restart_invocations_witness :
    (pushCount (Uptime.CheckUptime sampleConfig (calmWorld 10)).trace = 0
        ∧ execCount (Uptime.CheckUptime sampleConfig (calmWorld 10)).trace = 0)
      ∧ (pushCount (Uptime.CheckUptime sampleConfig (calmWorld 45)).trace = 1
        ∧ execCount (Uptime.CheckUptime sampleConfig (calmWorld 45)).trace = 0)
      ∧ execCount (Uptime.CheckUptime sampleConfig (calmWorld 60)).trace = 1 :=
  ⟨(checkUptime_restart_invocations sampleConfig (calmWorld 10) 864000000000000
      (by rfl)).2.1 (by decide) (by decide),
    (checkUptime_restart_invocations sampleConfig (calmWorld 45) 3888000000000000
      (by rfl)).2.2 (by decide) (by decide),
    (checkUptime_restart_invocations sampleConfig (calmWorld 60) 5184000000000000
      (by rfl)).1.trans (by decide)⟩

/-- C8. After a successful uptime read with `uptimeDays` in the advisory range
(`warning ≤ uptimeDays < critical`), the effects of `CheckUptime` (uptime.go)
are exactly one notifier call, whose message embeds `warningThresholdDays`
and which offers the two actions "Later" and "Restart Now": no wait, no
invocation of the restart command; and the run returns normally whether or
not the notifier call fails. -/
theorem checkUptime_advisory_run (config : Configuration) (w : World) (uptime : Int)
    (hread : Uptime.GetSystemUptime w = Except.ok uptime)
    (hw : config.UptimeThresholdWarning ≤ w.hoursDiv24 uptime)
    (hc : w.hoursDiv24 uptime < config.UptimeThresholdCritical) :
    effects (Uptime.CheckUptime config w).trace
        = [Event.push
            { AppID := "System Reminder"
              Title := "System Uptime Warning"
              Message := "Your system has been up for over "
                ++ toString config.UptimeThresholdWarning
                ++ " days. Would you like to restart now or later?"
              Actions := [
                { ActionType := "protocol", Label := "Later", Arguments := "later" },
                { ActionType := "protocol", Label := "Restart Now", Arguments := "restart" }] }]
      ∧ (Uptime.CheckUptime config w).outcome = Outcome.returned
      ∧ pushCount (Uptime.CheckUptime config w).trace = 1
      ∧ sleepCount (Uptime.CheckUptime config w).trace = 0
      ∧ execCount (Uptime.CheckUptime config w).trace = 0 := by
  have hb := (uptime_branch_advisory_iff config _).2 ⟨hw, hc⟩
  have hrun := uptime_checkUptime_advisory config w uptime hread hb
  have heff : effects (Uptime.CheckUptime config w).trace
      = [Event.push
          { AppID := "System Reminder"
            Title := "System Uptime Warning"
            Message := "Your system has been up for over "
              ++ toString config.UptimeThresholdWarning
              ++ " days. Would you like to restart now or later?"
            Actions := [
              { ActionType := "protocol", Label := "Later", Arguments := "later" },
              { ActionType := "protocol", Label := "Restart Now", Arguments := "restart" }] }] := by
    rw [hrun, ← uptime_checkUptime_message, ← uptime_pushNotification_effects config _ w 0]
    simp [effects, Event.isOutput]
  refine ⟨heff, ?_, ?_, ?_, ?_⟩
  · rw [hrun]
  · rw [← pushCount_effects, heff]
    rfl
  · rw [← sleepCount_effects, heff]
    rfl
  · rw [← execCount_effects, heff]
    rfl

/-- Witness of C8 at `warning = 30`, `critical = 60` after 45 days, in a world
where the notifier call fails: one notification, a normal return. -/
theorem checkUptime_advisory_run_witness :
    effects (Uptime.CheckUptime sampleConfig deafNotifierWorld).trace
        = [Event.push
            { AppID := "System Reminder"
              Title := "System Uptime Warning"
              Message := "Your system has been up for over 30 days. Would you like to restart now or later?"
              Actions := [
                { ActionType := "protocol", Label := "Later", Arguments := "later" },
                { ActionType := "protocol", Label := "Restart Now", Arguments := "restart" }] }]
      ∧ deafNotifierWorld.pushErr 0 ≠ none
      ∧ (Uptime.CheckUptime sampleConfig deafNotifierWorld).outcome = Outcome.returned :=
  have h := checkUptime_advisory_run sampleConfig deafNotifierWorld 3888000000000000
    (by rfl) (by decide) (by decide)
  ⟨h.1.trans (by decide), by decide, h.2.1⟩

/-! ## The restart command line -/

theorem splitChars_cons_sep (sep : Char) (cs : List Char) :
    splitChars sep (sep :: cs) = [] :: splitChars sep cs := by
  simp [splitChars]

theorem splitChars_cons_ne (sep c : Char) (cs p : List Char) (ps : List (List Char))
    (hc : c ≠ sep) (hs : splitChars sep cs = p :: ps) :
    splitChars sep (c :: cs) = (c :: p) :: ps := by
  simp [splitChars, hc, hs]

theorem splitChars_headD (sep : Char) (cs : List Char) :
    (splitChars sep cs).headD [] = cs.takeWhile (fun c => c != sep) := by
  induction cs with
  | nil => simp [splitChars]
  | cons c cs ih =>
    by_cases hc : c = sep
    · subst hc
      simp [splitChars_cons_sep]
    · cases hs : splitChars sep cs with
      | nil => exact absurd hs (splitChars_ne_nil sep cs)
      | cons p ps =>
        rw [hs] at ih
        simp only [List.headD_cons] at ih
        rw [splitChars_cons_ne sep c cs p ps hc hs]
        simp [hc, ih]

theorem splitChars_tail (sep : Char) (cs : List Char) :
    (splitChars sep cs).tail
      = if sep ∈ cs then splitChars sep ((cs.dropWhile (fun c => c != sep)).tail) else [] := by
  induction cs with
  | nil => simp [splitChars]
  | cons c cs ih =>
    by_cases hc : c = sep
    · subst hc
      simp [splitChars_cons_sep]
    · have hne : ¬ sep = c := fun h => hc h.symm
      cases hs : splitChars sep cs with
      | nil => exact absurd hs (splitChars_ne_nil sep cs)
      | cons p ps =>
        rw [hs] at ih
        simp only [List.tail_cons] at ih
        rw [splitChars_cons_ne sep c cs p ps hc hs]
        simp [hc, hne, ih]

theorem splitChars_no_sep (sep : Char) (cs : List Char) :
    ∀ p ∈ splitChars sep cs, sep ∉ p := by
  induction cs with
  | nil => simp [splitChars]
  | cons c cs ih =>
    by_cases hc : c = sep
    · subst hc
      simpa [splitChars_cons_sep] using ih
    · have hne : ¬ sep = c := fun h => hc h.symm
      cases hs : splitChars sep cs with
      | nil => exact absurd hs (splitChars_ne_nil sep cs)
      | cons p ps =>
        rw [hs] at ih
        rw [splitChars_cons_ne sep c cs p ps hc hs]
        intro q hq
        rcases List.mem_cons.1 hq with rfl | hq
        · simp [hne, ih p (List.mem_cons_self _ _)]
        · exact ih q (List.mem_cons_of_mem _ hq)

theorem intercalate_cons_cons (sep p q : List Char) (qs : List (List Char)) :
    List.intercalate sep (p :: q :: qs) = p ++ sep ++ List.intercalate sep (q :: qs) := by
  simp [List.intercalate, List.intersperse, List.flatten]

theorem splitChars_intercalate (sep : Char) (cs : List Char) :
    List.intercalate [sep] (splitChars sep cs) = cs := by
  induction cs with
  | nil => simp [splitChars, List.intercalate]
  | cons c cs ih =>
    cases hs : splitChars sep cs with
    | nil => exact absurd hs (splitChars_ne_nil sep cs)
    | cons p ps =>
      rw [hs] at ih
      by_cases hc : c = sep
      · subst hc
        rw [splitChars_cons_sep, hs, intercalate_cons_cons, ih]
        simp
      · rw [splitChars_cons_ne sep c cs p ps hc hs]
        cases ps with
        | nil =>
          simp only [List.intercalate, List.intersperse, List.flatten] at ih ⊢
          simpa using ih
        | cons q qs =>
          rw [intercalate_cons_cons] at ih ⊢
          rw [← ih]
          simp

/-- The command line of `ForceRestart` in uptime.go, for every restart
command: the last effect is one invocation whose program is the text before
the first space and whose arguments are the split of the text after it; no
token contains a space, and a command without a space runs with no argument. -/
theorem uptime_forceRestart_command_line (config : Configuration) (w : World) :
    ∃ pre cmdName cmdArgs,
      effects (Uptime.ForceRestart config w).trace = pre ++ [Event.exec cmdName cmdArgs]
        ∧ execCount pre = 0
        ∧ cmdName = String.mk (config.RestartCommand.data.takeWhile (fun c => c != ' '))
        ∧ cmdArgs
          = (if ' ' ∈ config.RestartCommand.data then
              Split (String.mk (config.RestartCommand.data.dropWhile (fun c => c != ' ')).tail) ' '
            else [])
        ∧ (∀ a ∈ cmdName :: cmdArgs, ' ' ∉ a.data)
        ∧ (' ' ∉ config.RestartCommand.data
            → cmdName = config.RestartCommand ∧ cmdArgs = []) := by
  have hhead : (Split config.RestartCommand ' ').headD ""
      = String.mk (config.RestartCommand.data.takeWhile (fun c => c != ' ')) := by
    have h := splitChars_headD ' ' config.RestartCommand.data
    unfold Split
    cases hs : splitChars ' ' config.RestartCommand.data with
    | nil => exact absurd hs (splitChars_ne_nil _ _)
    | cons p ps =>
      rw [hs] at h
      simp only [List.headD_cons] at h
      simp [h]
  have htail : (Split config.RestartCommand ' ').tail
      = (if ' ' ∈ config.RestartCommand.data then
          Split (String.mk (config.RestartCommand.data.dropWhile (fun c => c != ' ')).tail) ' '
        else []) := by
    have h := splitChars_tail ' ' config.RestartCommand.data
    unfold Split
    rw [← List.map_tail, h]
    split_ifs <;> simp
  have hall : ∀ a ∈ Split config.RestartCommand ' ', ' ' ∉ a.data := by
    intro a ha
    unfold Split at ha
    obtain ⟨p, hp, rfl⟩ := List.mem_map.1 ha
    exact splitChars_no_sep ' ' _ p hp
  have hcons : (Split config.RestartCommand ' ').headD "" :: (Split config.RestartCommand ' ').tail
      = Split config.RestartCommand ' ' := by
    cases hs : Split config.RestartCommand ' ' with
    | nil => exact absurd hs (Split_ne_nil _ _)
    | cons p ps => simp
  refine ⟨_, _, _, uptime_forceRestart_effects config w, ?_, hhead, htail, ?_, ?_⟩
  · rw [execCount_effects]
    exact uptime_countdown_no_exec config w _ _
  · rw [hcons]
    exact hall
  · intro hno
    rw [htail, if_neg hno, hhead]
    refine ⟨?_, rfl⟩
    have htw : config.RestartCommand.data.takeWhile (fun c => c != ' ')
        = config.RestartCommand.data := by
      rw [List.takeWhile_eq_self_iff]
      intro c hc
      have hne : c ≠ ' ' := fun h => hno (h ▸ hc)
      simpa using hne
    rw [htw]

/-- The command line of `ForceRestart` in main.go, for every restart command:
the last effect is one invocation whose program is the whole restart command
and which has no argument. -/
theorem main_forceRestart_command_line (config : Configuration) (w : World) :
    ∃ pre,
      effects (Main.ForceRestart config w).trace
          = pre ++ [Event.exec config.RestartCommand []]
        ∧ execCount pre = 0 := by
  refine ⟨_, main_forceRestart_effects config w, ?_⟩
  rw [execCount_effects]
  exact main_countdown_no_exec config w _ _

/-- C10, the code at a failing input. With the restart command
`shutdown /r /t 0` and no countdown, `ForceRestart` of main.go invokes the
program named `shutdown /r /t 0` with no argument, while `ForceRestart` of
uptime.go invokes the program `shutdown` with the arguments `/r`, `/t`, `0`. -/
theorem main_forceRestart_runs_whole_string :
    immediateConfig.RestartCommand = "shutdown /r /t 0"
      ∧ effects (Main.ForceRestart immediateConfig (calmWorld 60)).trace
        = [Event.exec "shutdown /r /t 0" []]
      ∧ effects (Uptime.ForceRestart immediateConfig (calmWorld 60)).trace
        = [Event.exec "shutdown" ["/r", "/t", "0"]] := by
  refine ⟨rfl, ?_, ?_⟩
  · rw [main_forceRestart_effects, main_countdown_effects_int]
    decide
  · rw [uptime_forceRestart_effects, uptime_countdown_effects_int]
    decide

/-! ## A run with a failing notifier -/

/-- The whole run of `ForceRestart` (uptime.go) with a countdown of 3 minutes
when the second notification push fails: the failure is logged, the third
tick and the restart still happen, and the run returns. -/
theorem forceRestart_flaky_notifier_run :
    Uptime.ForceRestart shortCountdown flakyNotifierWorld
      = ⟨[Event.log "Your system has been running for over 60 days. It will restart in 3 minutes.",
          Event.push (Uptime.ForceRestart.notification shortCountdown 3),
          Event.sleep 1,
          Event.log "Your system has been running for over 60 days. It will restart in 2 minutes.",
          Event.push (Uptime.ForceRestart.notification shortCountdown 2),
          Event.log "Failed to push notification: toast: powershell failed",
          Event.sleep 1,
          Event.log "Your system has been running for over 60 days. It will restart in 1 minutes.",
          Event.push (Uptime.ForceRestart.notification shortCountdown 1),
          Event.sleep 1,
          Event.exec "shutdown" ["/r", "/t", "0"],
          Event.log "Restart command executed successfully. Output: "],
        Outcome.returned⟩ := by
  have hsplit : Split shortCountdown.RestartCommand ' ' = ["shutdown", "/r", "/t", "0"] := by
    decide
  have hc : shortCountdown.CountdownMinutes = 3 := rfl
  have hlit : "Your system has been running for over "
      ++ toString shortCountdown.UptimeThresholdCritical ++ " days. " ++ "It will restart in "
      = "Your system has been running for over 60 days. It will restart in " := by decide
  have hm : ∀ k : Int, Uptime.ForceRestart.message shortCountdown k
      = "Your system has been running for over 60 days. It will restart in "
        ++ toString k ++ " minutes." := by
    intro k
    unfold Uptime.ForceRestart.message
    rw [hlit]
  simp [Uptime.ForceRestart, Uptime.ForceRestart.countdown, hsplit, hc, hm, flakyNotifierWorld,
    calmWorld]
  decide

/-! ## A failed uptime read -/

/-- C11. `GetSystemUptime` reports a failure exactly when the tick counter
returns 0; in that case, whatever the configuration, the run of `CheckUptime`
is the one fatal log line and the fatal exit: no uptime is printed, no branch
is taken, and there is no notifier call, no wait and no invocation of the
restart command.  This holds for both copies. -/
theorem checkUptime_read_failure (config : Configuration) (w : World) :
    (((∃ err, Uptime.GetSystemUptime w = Except.error err) ↔ w.tickCount = 0)
      ∧ (w.tickCount = 0
          → Uptime.CheckUptime config w
              = ⟨[Event.log ("Error getting system uptime: "
                    ++ ("GetTickCount64 failed: " ++ w.tickErr))],
                Outcome.fatal 1⟩
            ∧ pushCount (Uptime.CheckUptime config w).trace = 0
            ∧ sleepCount (Uptime.CheckUptime config w).trace = 0
            ∧ execCount (Uptime.CheckUptime config w).trace = 0))
    ∧ (((∃ err, Main.GetSystemUptime w = Except.error err) ↔ w.tickCount = 0)
      ∧ (w.tickCount = 0
          → Main.CheckUptime config w
              = ⟨[Event.log ("Error getting system uptime: "
                    ++ ("GetTickCount64 failed: " ++ w.tickErr))],
                Outcome.fatal 1⟩
            ∧ pushCount (Main.CheckUptime config w).trace = 0
            ∧ sleepCount (Main.CheckUptime config w).trace = 0
            ∧ execCount (Main.CheckUptime config w).trace = 0)) := by
  refine ⟨⟨?_, ?_⟩, ?_, ?_⟩
  · unfold Uptime.GetSystemUptime
    by_cases h0 : w.tickCount = 0 <;> simp [h0]
  · intro h0
    have hrun : Uptime.CheckUptime config w
        = ⟨[Event.log ("Error getting system uptime: "
              ++ ("GetTickCount64 failed: " ++ w.tickErr))],
            Outcome.fatal 1⟩ := by
      simp [Uptime.CheckUptime, Uptime.GetSystemUptime, h0]
    rw [hrun]
    exact ⟨rfl, rfl, rfl, rfl⟩
  · unfold Main.GetSystemUptime
    by_cases h0 : w.tickCount = 0 <;> simp [h0]
  · intro h0
    have hrun : Main.CheckUptime config w
        = ⟨[Event.log ("Error getting system uptime: "
              ++ ("GetTickCount64 failed: " ++ w.tickErr))],
            Outcome.fatal 1⟩ := by
      simp [Main.CheckUptime, Main.GetSystemUptime, h0]
    rw [hrun]
    exact ⟨rfl, rfl, rfl, rfl⟩

/-- Witness of C11 at a tick count of 0 with `warning = 30`, `critical = 60`:
the run is the fatal log line alone. -/
theorem checkUptime_read_failure_witness :
    deadClockWorld.tickCount = 0
      ∧ Uptime.CheckUptime sampleConfig deadClockWorld
        = ⟨[Event.log ("Error getting system uptime: "
              ++ ("GetTickCount64 failed: " ++ "The operation completed successfully."))],
            Outcome.fatal 1⟩
      ∧ Main.CheckUptime sampleConfig deadClockWorld
        = ⟨[Event.log ("Error getting system uptime: "
              ++ ("GetTickCount64 failed: " ++ "The operation completed successfully."))],
            Outcome.fatal 1⟩ :=
  have h := checkUptime_read_failure sampleConfig deadClockWorld
  ⟨by decide, (h.1.2 (by decide)).1, (h.2.2 (by decide)).1⟩

/-! ## The loop of `setRegistryKey` -/

theorem edge_range_eq_chrome_range (reg : Registry) (path : String)
    (values : List (String × Value)) (err : Option String) (st : Store) (k : Nat) :
    Edge.setRegistryKey.range reg path values err st k
      = Chrome.setRegistryKey.range reg path values err st k := by
  induction values generalizing err st k with
  | nil => rfl
  | cons entry rest ih =>
    obtain ⟨name, value⟩ := entry
    cases value <;>
      simp only [Edge.setRegistryKey.range, Chrome.setRegistryKey.range, ih]

theorem edge_setRegistryKey_eq_chrome (reg : Registry) (path : String)
    (values : List (String × Value)) :
    Edge.setRegistryKey reg path values = Chrome.setRegistryKey reg path values := by
  simp only [Edge.setRegistryKey, Chrome.setRegistryKey, edge_range_eq_chrome_range]

theorem writes_cons_uint32 (name : String) (v : Nat) (rest : List (String × Value)) :
    writes ((name, Value.uint32 v) :: rest) = (name, Value.uint32 v) :: writes rest := by
  simp [writes, Value.data?]

theorem writes_cons_string (name : String) (v : String) (rest : List (String × Value)) :
    writes ((name, Value.string v) :: rest) = (name, Value.string v) :: writes rest := by
  simp [writes, Value.data?]

theorem writes_cons_other (name : String) (t : String) (rest : List (String × Value)) :
    writes ((name, Value.other t) :: rest) = writes rest := by
  simp [writes, Value.data?]

theorem store_set_other (st : Store) (path name : String) (d : RegData) (p n : String)
    (h : p ≠ path ∨ n ≠ name) : st.set path name d p n = st p n := by
  unfold Store.set
  rw [if_neg]
  rintro ⟨hp, hn⟩
  rcases h with h | h
  · exact h hp
  · exact h hn

theorem store_set_same (st : Store) (path name : String) (d : RegData) :
    st.set path name d path name = some d := by
  simp [Store.set]

/-- The loop leaves alone every value of another key path, and every value
name that no written entry carries. -/
theorem chrome_range_store_untouched (reg : Registry) (path : String)
    (values : List (String × Value)) (st : Store) (k : Nat) (p n : String)
    (h : p ≠ path ∨ ∀ v, (n, v) ∈ values → v.data? = none) :
    (Chrome.setRegistryKey.range reg path values none st k).store p n = st p n := by
  induction values generalizing st k with
  | nil => rfl
  | cons entry rest ih =>
    obtain ⟨name, value⟩ := entry
    have hrest : p ≠ path ∨ ∀ v, (n, v) ∈ rest → v.data? = none := by
      rcases h with h | h
      · exact Or.inl h
      · exact Or.inr fun v hv => h v (List.mem_cons_of_mem _ hv)
    have hne : ∀ v, value = v → v.data? ≠ none → p ≠ path ∨ n ≠ name := by
      intro v hv hd
      rcases h with h | h
      · exact Or.inl h
      · refine Or.inr fun hn => hd (h v ?_)
        rw [hn, ← hv]
        exact List.mem_cons_self _ _
    cases value with
    | uint32 v =>
      rw [Chrome.setRegistryKey.range]
      cases hset : reg.setErr k name with
      | some e => rfl
      | none =>
        simp only [hset]
        rw [ih _ _ hrest]
        exact store_set_other _ _ _ _ _ _ (hne _ rfl (by simp [Value.data?]))
    | string v =>
      rw [Chrome.setRegistryKey.range]
      cases hset : reg.setErr k name with
      | some e => rfl
      | none =>
        simp only [hset]
        rw [ih _ _ hrest]
        exact store_set_other _ _ _ _ _ _ (hne _ rfl (by simp [Value.data?]))
    | other t =>
      rw [Chrome.setRegistryKey.range]
      simp only
      exact ih _ _ hrest

/-- When every write from attempt `k` on succeeds, the loop returns no error
and makes the step of every entry, in order. -/
theorem chrome_range_success (reg : Registry) (path : String)
    (values : List (String × Value)) (st : Store) (k : Nat)
    (hs : ∀ i name v, (writes values)[i]? = some (name, v) → reg.setErr (k + i) name = none) :
    (Chrome.setRegistryKey.range reg path values none st k).err = none
      ∧ (Chrome.setRegistryKey.range reg path values none st k).trace
        = values.map (RegEvent.ofEntry path) := by
  induction values generalizing st k with
  | nil => exact ⟨rfl, rfl⟩
  | cons entry rest ih =>
    obtain ⟨name, value⟩ := entry
    cases value with
    | uint32 v =>
      have h0 : reg.setErr k name = none := by
        have := hs 0 name (Value.uint32 v) (by rw [writes_cons_uint32]; simp)
        simpa using this
      have hrest : ∀ i n u, (writes rest)[i]? = some (n, u)
          → reg.setErr (k + 1 + i) n = none := by
        intro i n u hi
        have := hs (i + 1) n u (by rw [writes_cons_uint32]; simpa using hi)
        rwa [show k + (i + 1) = k + 1 + i by omega] at this
      rw [Chrome.setRegistryKey.range]
      simp only [h0, List.map_cons]
      exact ⟨(ih _ _ hrest).1, by rw [(ih _ _ hrest).2]; rfl⟩
    | string v =>
      have h0 : reg.setErr k name = none := by
        have := hs 0 name (Value.string v) (by rw [writes_cons_string]; simp)
        simpa using this
      have hrest : ∀ i n u, (writes rest)[i]? = some (n, u)
          → reg.setErr (k + 1 + i) n = none := by
        intro i n u hi
        have := hs (i + 1) n u (by rw [writes_cons_string]; simpa using hi)
        rwa [show k + (i + 1) = k + 1 + i by omega] at this
      rw [Chrome.setRegistryKey.range]
      simp only [h0, List.map_cons]
      exact ⟨(ih _ _ hrest).1, by rw [(ih _ _ hrest).2]; rfl⟩
    | other t =>
      have hrest : ∀ i n u, (writes rest)[i]? = some (n, u)
          → reg.setErr (k + i) n = none := by
        intro i n u hi
        exact hs i n u (by rw [writes_cons_other]; exact hi)
      rw [Chrome.setRegistryKey.range]
      simp only [List.map_cons]
      exact ⟨(ih _ _ hrest).1, by rw [(ih _ _ hrest).2]; rfl⟩

/-- When every write from attempt `k` on succeeds and the names are distinct,
every written entry is stored under its name after the loop. -/
theorem chrome_range_stored (reg : Registry) (path : String)
    (values : List (String × Value)) (st : Store) (k : Nat)
    (hs : ∀ i name v, (writes values)[i]? = some (name, v) → reg.setErr (k + i) name = none)
    (hnodup : (values.map Prod.fst).Nodup)
    (name : String) (v : Value) (d : RegData) (hmem : (name, v) ∈ values)
    (hd : v.data? = some d) :
    (Chrome.setRegistryKey.range reg path values none st k).store path name = some d := by
  induction values generalizing st k with
  | nil => simp at hmem
  | cons entry rest ih =>
    obtain ⟨name0, value0⟩ := entry
    rw [List.map_cons, List.nodup_cons] at hnodup
    obtain ⟨hfresh, hnodup⟩ := hnodup
    have hlater : ∀ u, (name0, u) ∈ rest → u.data? = none := by
      intro u hu
      exact absurd (List.mem_map_of_mem Prod.fst hu) hfresh
    cases value0 with
    | uint32 v0 =>
      have h0 : reg.setErr k name0 = none := by
        have := hs 0 name0 (Value.uint32 v0) (by rw [writes_cons_uint32]; simp)
        simpa using this
      have hrest : ∀ i n u, (writes rest)[i]? = some (n, u)
          → reg.setErr (k + 1 + i) n = none := by
        intro i n u hi
        have := hs (i + 1) n u (by rw [writes_cons_uint32]; simpa using hi)
        rwa [show k + (i + 1) = k + 1 + i by omega] at this
      rw [Chrome.setRegistryKey.range]
      simp only [h0]
      rcases List.mem_cons.1 hmem with heq | hmem
      · obtain ⟨rfl, rfl⟩ := Prod.mk.inj heq
        rw [chrome_range_store_untouched reg path rest _ _ path name (Or.inr hlater),
          store_set_same]
        simpa [Value.data?] using hd
      · exact ih _ _ hrest hnodup hmem
    | string v0 =>
      have h0 : reg.setErr k name0 = none := by
        have := hs 0 name0 (Value.string v0) (by rw [writes_cons_string]; simp)
        simpa using this
      have hrest : ∀ i n u, (writes rest)[i]? = some (n, u)
          → reg.setErr (k + 1 + i) n = none := by
        intro i n u hi
        have := hs (i + 1) n u (by rw [writes_cons_string]; simpa using hi)
        rwa [show k + (i + 1) = k + 1 + i by omega] at this
      rw [Chrome.setRegistryKey.range]
      simp only [h0]
      rcases List.mem_cons.1 hmem with heq | hmem
      · obtain ⟨rfl, rfl⟩ := Prod.mk.inj heq
        rw [chrome_range_store_untouched reg path rest _ _ path name (Or.inr hlater),
          store_set_same]
        simpa [Value.data?] using hd
      · exact ih _ _ hrest hnodup hmem
    | other t =>
      have hrest : ∀ i n u, (writes rest)[i]? = some (n, u)
          → reg.setErr (k + i) n = none := by
        intro i n u hi
        exact hs i n u (by rw [writes_cons_other]; exact hi)
      rw [Chrome.setRegistryKey.range]
      simp only
      rcases List.mem_cons.1 hmem with heq | hmem
      · obtain ⟨rfl, rfl⟩ := Prod.mk.inj heq
        simp [Value.data?] at hd
      · exact ih _ _ hrest hnodup hmem

/-- When the write number `i` from attempt `k` on is the first to fail, the
loop returns the error naming its value, and its steps are those of the
entries up to and including the failing one: nothing is done for a later entry. -/
theorem chrome_range_failure (reg : Registry) (path : String)
    (values : List (String × Value)) (st : Store) (k i : Nat) (name : String) (v : Value)
    (e : String)
    (hi : (writes values)[i]? = some (name, v))
    (he : reg.setErr (k + i) name = some e)
    (hbefore : ∀ j n u, j < i → (writes values)[j]? = some (n, u)
      → reg.setErr (k + j) n = none) :
    (Chrome.setRegistryKey.range reg path values none st k).err
        = some ("failed to set registry value " ++ name ++ ": " ++ e)
      ∧ ∃ pre post, values = pre ++ (name, v) :: post
          ∧ (writes pre).length = i
          ∧ (Chrome.setRegistryKey.range reg path values none st k).trace
            = (pre ++ [(name, v)]).map (RegEvent.ofEntry path) := by
  induction values generalizing st k i with
  | nil => simp [writes] at hi
  | cons entry rest ih =>
    obtain ⟨name0, value0⟩ := entry
    cases value0 with
    | uint32 v0 =>
      rw [writes_cons_uint32] at hi hbefore
      rw [Chrome.setRegistryKey.range]
      cases i with
      | zero =>
        simp only [List.getElem?_cons_zero, Option.some.injEq, Prod.mk.injEq] at hi
        obtain ⟨rfl, rfl⟩ := hi
        rw [Nat.add_zero] at he
        simp only [he]
        exact ⟨trivial, [], rest, rfl, rfl, rfl⟩
      | succ i =>
        have h0 : reg.setErr k name0 = none := by
          have := hbefore 0 name0 (Value.uint32 v0) (Nat.succ_pos i) (by simp)
          simpa using this
        have hi2 : (writes rest)[i]? = some (name, v) := by simpa using hi
        have he2 : reg.setErr (k + 1 + i) name = some e := by
          rwa [show k + (i + 1) = k + 1 + i by omega] at he
        have hb2 : ∀ j n u, j < i → (writes rest)[j]? = some (n, u)
            → reg.setErr (k + 1 + j) n = none := by
          intro j n u hj hju
          have := hbefore (j + 1) n u (by omega) (by simpa using hju)
          rwa [show k + (j + 1) = k + 1 + j by omega] at this
        obtain ⟨herr, pre, post, hsplit, hlen, htrace⟩ :=
          ih (st.set path name0 (RegData.dword v0)) (k + 1) i hi2 he2 hb2
        simp only [h0]
        refine ⟨herr, (name0, Value.uint32 v0) :: pre, post, ?_, ?_, ?_⟩
        · rw [hsplit]
          rfl
        · rw [writes_cons_uint32, List.length_cons, hlen]
        · rw [htrace]
          rfl
    | string v0 =>
      rw [writes_cons_string] at hi hbefore
      rw [Chrome.setRegistryKey.range]
      cases i with
      | zero =>
        simp only [List.getElem?_cons_zero, Option.some.injEq, Prod.mk.injEq] at hi
        obtain ⟨rfl, rfl⟩ := hi
        rw [Nat.add_zero] at he
        simp only [he]
        exact ⟨trivial, [], rest, rfl, rfl, rfl⟩
      | succ i =>
        have h0 : reg.setErr k name0 = none := by
          have := hbefore 0 name0 (Value.string v0) (Nat.succ_pos i) (by simp)
          simpa using this
        have hi2 : (writes rest)[i]? = some (name, v) := by simpa using hi
        have he2 : reg.setErr (k + 1 + i) name = some e := by
          rwa [show k + (i + 1) = k + 1 + i by omega] at he
        have hb2 : ∀ j n u, j < i → (writes rest)[j]? = some (n, u)
            → reg.setErr (k + 1 + j) n = none := by
          intro j n u hj hju
          have := hbefore (j + 1) n u (by omega) (by simpa using hju)
          rwa [show k + (j + 1) = k + 1 + j by omega] at this
        obtain ⟨herr, pre, post, hsplit, hlen, htrace⟩ :=
          ih (st.set path name0 (RegData.sz v0)) (k + 1) i hi2 he2 hb2
        simp only [h0]
        refine ⟨herr, (name0, Value.string v0) :: pre, post, ?_, ?_, ?_⟩
        · rw [hsplit]
          rfl
        · rw [writes_cons_string, List.length_cons, hlen]
        · rw [htrace]
          rfl
    | other t =>
      rw [writes_cons_other] at hi hbefore
      rw [Chrome.setRegistryKey.range]
      obtain ⟨herr, pre, post, hsplit, hlen, htrace⟩ := ih st k i hi he hbefore
      simp only
      refine ⟨herr, (name0, Value.other t) :: pre, post, ?_, ?_, ?_⟩
      · rw [hsplit]
        rfl
      · rw [writes_cons_other]
        exact hlen
      · rw [htrace]
        rfl

theorem value_unique_of_nodup (values : List (String × Value))
    (hnodup : (values.map Prod.fst).Nodup) (name : String) (u v : Value)
    (hu : (name, u) ∈ values) (hv : (name, v) ∈ values) : u = v := by
  induction values with
  | nil => simp at hu
  | cons entry rest ih =>
    rw [List.map_cons, List.nodup_cons] at hnodup
    obtain ⟨hfresh, hnodup⟩ := hnodup
    rcases List.mem_cons.1 hu with hu | hu <;> rcases List.mem_cons.1 hv with hv | hv
    · rw [← hu] at hv
      exact (Prod.mk.inj hv).2.symm
    · rw [← hu] at hfresh
      exact absurd (List.mem_map_of_mem Prod.fst hv) hfresh
    · rw [← hv] at hfresh
      exact absurd (List.mem_map_of_mem Prod.fst hu) hfresh
    · exact ih hnodup hu hv

/-! ## Claim on `setRegistryKey` -/

/-- C12. Let `values` list the entries of a map (distinct names), `order` be
any order in which the range visits them, and `path` a key path that opens;
let `r` be the result of `setRegistryKey` in either copy.  If every write
succeeds, `r` has no error, every `uint32` or `string` entry is stored under
its name with its value, an entry of another type leaves the store under its
name as it was, other key paths are untouched, and the steps are one per
entry in order.  If the write number `i`, of the value `name`, is the first
to fail, with error `e`, `r` has the error naming `name` and the steps stop
with that write: nothing is attempted for a later entry. -/
theorem setRegistryKey_applies_every_entry (reg : Registry) (path : String)
    (values order : List (String × Value)) (r : SetResult)
    (hopen : reg.openErr path = none)
    (hnodup : (values.map Prod.fst).Nodup)
    (horder : order.Perm values)
    (hr : r = Chrome.setRegistryKey reg path order ∨ r = Edge.setRegistryKey reg path order) :
    (everyWriteSucceeds reg order
        → r.err = none
          ∧ (∀ name n, (name, Value.uint32 n) ∈ values
              → r.store path name = some (RegData.dword n))
          ∧ (∀ name s, (name, Value.string s) ∈ values
              → r.store path name = some (RegData.sz s))
          ∧ (∀ name t, (name, Value.other t) ∈ values
              → r.store path name = reg.store path name)
          ∧ (∀ p name, p ≠ path → r.store p name = reg.store p name)
          ∧ r.trace = order.map (RegEvent.ofEntry path))
      ∧ (∀ i name v e, firstFailingWrite reg order i name v e
        → r.err = some ("failed to set registry value " ++ name ++ ": " ++ e)
          ∧ ∃ pre post, order = pre ++ (name, v) :: post
              ∧ (writes pre).length = i
              ∧ r.trace = (pre ++ [(name, v)]).map (RegEvent.ofEntry path)) := by
  have hrun : r = Chrome.setRegistryKey.range reg path order none reg.store 0 := by
    rcases hr with hr | hr
    · rw [hr, Chrome.setRegistryKey, hopen]
    · rw [hr, edge_setRegistryKey_eq_chrome, Chrome.setRegistryKey, hopen]
  have hnodup2 : (order.map Prod.fst).Nodup := (horder.map Prod.fst).nodup_iff.2 hnodup
  subst hrun
  constructor
  · intro hall
    have hs : ∀ i name v, (writes order)[i]? = some (name, v)
        → reg.setErr (0 + i) name = none := by
      intro i name v hi
      rw [Nat.zero_add]
      exact hall i name v hi
    obtain ⟨herr, htrace⟩ := chrome_range_success reg path order reg.store 0 hs
    refine ⟨herr, ?_, ?_, ?_, ?_, htrace⟩
    · intro name n hmem
      exact chrome_range_stored reg path order reg.store 0 hs hnodup2 name _ _
        (horder.mem_iff.2 hmem) rfl
    · intro name s hmem
      exact chrome_range_stored reg path order reg.store 0 hs hnodup2 name _ _
        (horder.mem_iff.2 hmem) rfl
    · intro name t hmem
      refine chrome_range_store_untouched reg path order reg.store 0 path name (Or.inr ?_)
      intro v hv
      rw [value_unique_of_nodup order hnodup2 name v (Value.other t) hv
        (horder.mem_iff.2 hmem)]
      rfl
    · intro p name hp
      exact chrome_range_store_untouched reg path order reg.store 0 p name (Or.inl hp)
  · rintro i name v e ⟨hi, he, hbefore⟩
    refine chrome_range_failure reg path order reg.store 0 i name v e hi ?_ ?_
    · rwa [Nat.zero_add]
    · intro j n u hj hju
      rw [Nat.zero_add]
      exact hbefore j n u hj hju

/-- Witness of C12 on four entries visited in reverse order: in a registry
where every write succeeds the call in win-cis-chrome has no error, the
`uint32` and `string` entries are stored and the entry of type `bool` stores
nothing; in a registry that refuses the second write the call in
win-cis-edge returns the error naming `AuthSchemes`. -/
theorem setRegistryKey_applies_every_entry_witness :
    ((Chrome.setRegistryKey healthyRegistry chromePath reversedPolicies).err = none
        ∧ (Chrome.setRegistryKey healthyRegistry chromePath reversedPolicies).store
            chromePath "DiskCacheSize" = some (RegData.dword 250609664)
        ∧ (Chrome.setRegistryKey healthyRegistry chromePath reversedPolicies).store
            chromePath "AuthSchemes" = some (RegData.sz "[\"ntlm\", \"negotiate\"]")
        ∧ (Chrome.setRegistryKey healthyRegistry chromePath reversedPolicies).store
            chromePath "Homepage" = none)
      ∧ (Edge.setRegistryKey refusingRegistry chromePath reversedPolicies).err
        = some "failed to set registry value AuthSchemes: Access is denied." :=
  have hok := (setRegistryKey_applies_every_entry healthyRegistry chromePath samplePolicies
    reversedPolicies (Chrome.setRegistryKey healthyRegistry chromePath reversedPolicies)
    rfl (by decide) (List.reverse_perm samplePolicies) (Or.inl rfl)).1
    (fun _ _ _ _ => rfl)
  have hfail := (setRegistryKey_applies_every_entry refusingRegistry chromePath samplePolicies
    reversedPolicies (Edge.setRegistryKey refusingRegistry chromePath reversedPolicies)
    rfl (by decide) (List.reverse_perm samplePolicies) (Or.inr rfl)).2
    1 "AuthSchemes" (Value.string "[\"ntlm\", \"negotiate\"]") "Access is denied."
    ⟨by decide, by decide, fun j _ _ hj _ => by
      have h0 : j = 0 := by omega
      subst h0
      rfl⟩
  ⟨⟨hok.1, hok.2.1 "DiskCacheSize" 250609664 (by decide),
      hok.2.2.1 "AuthSchemes" "[\"ntlm\", \"negotiate\"]" (by decide),
      (hok.2.2.2.1 "Homepage" "bool" (by decide)).trans (by decide)⟩,
    hfail.1.trans (by decide)⟩

end Wingo
